import Mathlib

/-!
# ChamAIleon: transfer form, dashboard subscriptions and admin session gate

A shallow embedding of the logic of three pages of the repository:

* `src/chameleon/app/dashboard/transferPage/page.jsx` (component `Transfer`):
  `validateForm`, `handleSubmit`, `handleInputChange`;
* `src/chameleon/app/dashboard/page.jsx` (component `Index`): the effect that
  subscribes to the auth state and to the user document, the callback of the
  document subscription, and the render with its fallbacks;
* `src/chameleon_admin/app/Dashboard/page.jsx` (component `Dashboard`): the
  effect that authorises an admin session, and the derived `displayName` and
  `initials`.

React state is passed explicitly; calls into the toast, router, timer and
Firebase layers are recorded as values of an effect type, in program order.
JavaScript strings are Lean strings whose length is counted in UTF-16 code
units; JavaScript numbers are modelled exactly (see `JsNumber`). An expression
that throws gives an error result.
-/

namespace ChamAIleon

/-! ## JavaScript strings -/

/-- Number of UTF-16 code units of one code point. -/
def utf16Size (c : Char) : Nat :=
  if c.toNat < 0x10000 then 1 else 2

/-- The `length` property of a JavaScript string: its number of UTF-16 code units. -/
def jsLength (s : String) : Nat :=
  (s.data.map utf16Size).sum

/-- The code points ECMAScript calls `WhiteSpace` or `LineTerminator`; these are
the ones `String.prototype.trim` and `parseFloat` strip. -/
def isWhiteSpace (c : Char) : Bool :=
  let n := c.toNat
  n == 0x09 || n == 0x0A || n == 0x0B || n == 0x0C || n == 0x0D || n == 0x20 ||
  n == 0xA0 || n == 0x1680 || (0x2000 ≤ n && n ≤ 0x200A) || n == 0x2028 ||
  n == 0x2029 || n == 0x202F || n == 0x205F || n == 0x3000 || n == 0xFEFF

/-- Strip leading white space. -/
def trimStart (cs : List Char) : List Char :=
  cs.dropWhile isWhiteSpace

/-- Strip trailing white space. -/
def trimEnd (cs : List Char) : List Char :=
  (cs.reverse.dropWhile isWhiteSpace).reverse

/-- The method `String.prototype.trim`: white space stripped at both ends. -/
def trim (s : String) : String :=
  ⟨trimEnd (trimStart s.data)⟩

/-- JavaScript truthiness of a string value: only the empty string is falsy. -/
def truthy (s : String) : Bool :=
  !s.data.isEmpty

/-- The class `\d` of a regular expression without the `u` flag: `0` to `9`. -/
def isDecimalDigit (c : Char) : Bool :=
  decide (48 ≤ c.toNat) && decide (c.toNat ≤ 57)

/-- Matcher for `p{lo,hi}$` run at one position: consume one character of
class `p` while the upper bound allows, and accept at the end of input once the
lower bound is met. (`$` without the `m` flag matches only at the very end.) -/
def matchRepeatToEnd (p : Char → Bool) : Nat → Nat → List Char → Bool
  | lo, _, [] => lo == 0
  | _, 0, _ :: _ => false
  | lo, hi + 1, c :: cs => p c && matchRepeatToEnd p (lo - 1) hi cs

/-- The test `/^\d{10,16}$/.test(s)`: `^` pins the match to position 0. -/
def testAccountRegex (s : String) : Bool :=
  matchRepeatToEnd isDecimalDigit 10 16 s.data

/-- The reading of the pattern in words: a string of 10 to 16 characters, each
a decimal digit. -/
def IsTenToSixteenDigits (s : String) : Prop :=
  10 ≤ s.data.length ∧ s.data.length ≤ 16 ∧ ∀ c ∈ s.data, isDecimalDigit c = true

instance (s : String) : Decidable (IsTenToSixteenDigits s) := by
  unfold IsTenToSixteenDigits
  exact inferInstance

/-- A string of five characters, each a decimal digit, such as "12345". -/
def IsFiveDigits (s : String) : Prop :=
  s.data.length = 5 ∧ ∀ c ∈ s.data, isDecimalDigit c = true

instance (s : String) : Decidable (IsFiveDigits s) := by
  unfold IsFiveDigits
  exact inferInstance

/-! ## JavaScript numbers -/

/-- A JavaScript Number, that is an IEEE 754 binary64 value. Every finite
binary64 value is an integer multiple of `2 ^ (-1074)`, the least positive
subnormal, so a finite value is kept exactly as a sign and its magnitude
counted in that unit: `finite s k` stands for `(-1) ^ s * k * 2 ^ (-1074)`.
`finite true 0` is the negative zero. -/
inductive JsNumber
  | nan
  | infinity (negative : Bool)
  | finite (negative : Bool) (units : Nat)
  deriving DecidableEq, Repr

/-- The quotient `n / d` rounded to the nearest integer, ties to the even one. -/
def roundHalfEven (n d : Nat) : Nat :=
  let q := n / d
  let r := n % d
  if 2 * r < d then q
  else if d < 2 * r then q + 1
  else if q % 2 = 0 then q
  else q + 1

/-- Number of binary digits of `n`, for `n < 2 ^ 2 ^ i`, by halving the window:
when `n` has more than `2 ^ (i - 1)` digits, count those above them. -/
def bitLengthBelow : Nat → Nat → Nat
  | 0, n => if n = 0 then 0 else 1
  | i + 1, n =>
    if n < (1 <<< (1 <<< i)) then bitLengthBelow i n
    else (1 <<< i) + bitLengthBelow i (n >>> (1 <<< i))

/-- Number of binary digits of `n`, for `n < 2 ^ 4096`. -/
def bitLength (n : Nat) : Nat :=
  bitLengthBelow 12 n

/-- The Number value of the non-negative rational `n / d` with the given sign:
round to nearest, ties to even, in binary64. In units of `2 ^ (-1074)` the
representable magnitudes are the integers of at most 53 binary digits and the
multiples of `2 ^ j` with 53 significant digits; magnitudes from `2 ^ 1024`
(that is `2 ^ 2098` units) on become an infinity, which is decided first for
the values that are that large before rounding and again after rounding.
Powers of two are written as shifts: `a <<< b` is `a * 2 ^ b` and `a >>> b` is
`a / 2 ^ b`. -/
def roundToDouble (negative : Bool) (n d : Nat) : JsNumber :=
  let t := n <<< 1074
  if (1 <<< 2098) ≤ t / d then .infinity negative
  else
    let j := bitLength (t / d) - 53
    let k := roundHalfEven t (d <<< j) <<< j
    if (1 <<< 2098) ≤ k then .infinity negative else .finite negative k

/-- The numeric literal `0`. -/
def zero : JsNumber := .finite false 0

/-- The numeric literal `125840.50` of `validateForm`: `251681 / 2`, which
binary64 holds exactly. -/
def balanceCeiling : JsNumber := .finite false (251681 <<< 1073)

/-- The operation `Number::lessThan (x, y)` of ECMAScript: `none` is its `undefined`, the
answer when an operand is NaN. The two zeros compare equal. -/
def JsNumber.lessThan : JsNumber → JsNumber → Option Bool
  | .nan, _ => none
  | _, .nan => none
  | .infinity false, _ => some false
  | .infinity true, .infinity true => some false
  | .infinity true, _ => some true
  | .finite _ _, .infinity negative => some !negative
  | .finite false a, .finite false b => some (decide (a < b))
  | .finite true a, .finite true b => some (decide (b < a))
  | .finite true a, .finite false b => some (decide (0 < a) || decide (0 < b))
  | .finite false _, .finite true _ => some false

/-- The operator `x <= y` on Numbers: false when `y < x` is true or undefined. -/
def jsLe (x y : JsNumber) : Bool :=
  match JsNumber.lessThan y x with
  | some false => true
  | _ => false

/-- The operator `x > y` on Numbers: `y < x`, with undefined read as false. -/
def jsGt (x y : JsNumber) : Bool :=
  match JsNumber.lessThan y x with
  | some true => true
  | _ => false

/-! ## `parseFloat` -/

/-- Value of a decimal digit character. -/
def digitValue (c : Char) : Nat :=
  c.toNat - 48

/-- Value of a run of decimal digits, most significant first. -/
def digitsValue (cs : List Char) : Nat :=
  cs.foldl (fun acc c => 10 * acc + digitValue c) 0

/-- An optional sign: whether it is a minus, and the rest of the input. -/
def readSign : List Char → Bool × List Char
  | c :: rest => if c = '-' then (true, rest) else if c = '+' then (false, rest) else (false, c :: rest)
  | [] => (false, [])

/-- An optional `.` with the digits after it: the digits and the rest. Without
a `.` nothing is consumed. -/
def readFraction : List Char → List Char × List Char
  | c :: rest =>
    if c = '.' then (rest.takeWhile isDecimalDigit, rest.dropWhile isDecimalDigit)
    else ([], c :: rest)
  | [] => ([], [])

/-- An optional `ExponentPart` (`e` or `E`, an optional sign, one digit or
more): whether the exponent is negative, and its digits. An incomplete exponent
is not part of the longest prefix, so it reads as no exponent. -/
def readExponent : List Char → Bool × List Char
  | c :: rest =>
    if c = 'e' ∨ c = 'E' then
      let signed := readSign rest
      (signed.1, signed.2.takeWhile isDecimalDigit)
    else (false, [])
  | [] => (false, [])

/-- The global `parseFloat` applied to a string: skip leading white space, take
the longest prefix that is a `StrDecimalLiteral` (an optional sign, then
`Infinity` or digits with an optional fraction and an optional exponent), and
return the Number value of that prefix; NaN when there is no such prefix. The
value of the literal is `D * 10 ^ E / 10 ^ F` for `D` the integer and fraction
digits read together, `F` the number of fraction digits and `E` the exponent. -/
def parseFloat (s : String) : JsNumber :=
  let signed := readSign (trimStart s.data)
  let negative := signed.1
  let body := signed.2
  if "Infinity".data.isPrefixOf body then .infinity negative
  else
    let intDigits := body.takeWhile isDecimalDigit
    let frac := readFraction (body.dropWhile isDecimalDigit)
    let fracDigits := frac.1
    if intDigits.isEmpty && fracDigits.isEmpty then .nan
    else
      let exponent := readExponent frac.2
      let d := digitsValue (intDigits ++ fracDigits)
      let e := digitsValue exponent.2
      if exponent.1 then roundToDouble negative d (10 ^ fracDigits.length * 10 ^ e)
      else roundToDouble negative (d * 10 ^ e) (10 ^ fracDigits.length)

/-! ## `Number.prototype.toLocaleString("en-IN")` -/

/-- The power `10 ^ t`, written with exponents of at most 256. -/
def tenPow (t : Nat) : Nat :=
  (10 ^ 256) ^ (t / 256) * 10 ^ (t % 256)

/-- The reals that round to the finite Number of magnitude `k` units
(`k ≥ 1`), as the two ends of an interval counted in halves of a unit, that is
in multiples of `2 ^ (-1075)`, and whether the ends belong to it. The ends are
the midpoints to the neighbouring Numbers: the gap above is `2 ^ j` units for
`j` the number of binary digits of `k` beyond 53, and the gap below is half of
that when `k` is a power of two with `j ≥ 1`. Ties go to the even significand,
so the ends belong to the interval when the significand of `k` is even. -/
def roundTripInterval (k : Nat) : Nat × Nat × Bool :=
  let j := bitLength k - 53
  let below := if 1 ≤ j ∧ k = 1 <<< (bitLength k - 1) then 1 <<< (j - 1) else 1 <<< j
  (2 * k - below, 2 * k + (1 <<< j), (k >>> j) % 2 = 0)

/-- Membership in an interval whose ends are both in or both out. -/
def inInterval (lo hi : Nat) (closed : Bool) (m : Nat) : Bool :=
  if closed then decide (lo ≤ m) && decide (m ≤ hi) else decide (lo < m) && decide (m < hi)

/-- Whether a multiple of `grid` lies in the interval, which contains `x`: only
the multiple at or just below `x` and the next one can. -/
def gridHits (lo hi : Nat) (closed : Bool) (x grid : Nat) : Bool :=
  inInterval lo hi closed (x / grid * grid) || inInterval lo hi closed (x / grid * grid + grid)

/-- The largest `t + d` with `d < 2 ^ i` at which `hits` holds, for a `hits`
that holds at `t` and, once false, stays false: the binary digits of `d` are
decided from the top. -/
def coarsestHit (hits : Nat → Bool) : Nat → Nat → Nat
  | 0, t => t
  | i + 1, t =>
    if hits (t + (1 <<< i)) then coarsestHit hits i (t + (1 <<< i)) else coarsestHit hits i t

/-- The shortest decimal that reads back as the finite Number of magnitude `k`
units, given as its multiple of `10 ^ (-1074)` (every such Number is itself a
multiple of `10 ^ (-1074)`, so one exists). This is the decimal that
`Number::toString` prints and that the number formatter of the engine starts
from: among the decimals `s * 10 ^ e` in the interval of `roundTripInterval`
the ones with the largest `e` have the fewest digits, and of those the closest
to the Number is taken, the even `s` on a tie. All quantities are scaled by
`10 ^ 1074 * 2 ^ 1075` to be whole, and `e` is `t - 1074`. -/
def shortestDecimal (k : Nat) : Nat :=
  if k = 0 then 0
  else
    let interval := roundTripInterval k
    let lo := interval.1 * tenPow 1074
    let hi := interval.2.1 * tenPow 1074
    let closed := interval.2.2
    let x := 2 * k * tenPow 1074
    let t := coarsestHit (fun t => gridHits lo hi closed x (tenPow t <<< 1075)) 11 0
    let grid := tenPow t <<< 1075
    let below := x / grid * grid
    let above := below + grid
    let chosen :=
      if !inInterval lo hi closed below then above
      else if !inInterval lo hi closed above then below
      else if x - below < above - x then below
      else if above - x < x - below then above
      else if (below / grid) % 2 = 0 then below
      else above
    chosen >>> 1075

/-- The magnitude of `k` units in thousandths, as the number formatter rounds
it for at most three fraction digits: the shortest decimal of `shortestDecimal`
rounded to the nearest thousandth, a half going away from zero. -/
def roundedThousandths (k : Nat) : Nat :=
  (2 * shortestDecimal k + tenPow 1071) / (2 * tenPow 1071)

/-- Insert the separators of the groups of two digits; the input is the part
of the integer digits above the lowest three, least significant digit first. -/
def groupPairs : List Char → List Char
  | [] => []
  | [a] => [',', a]
  | a :: b :: rest => ',' :: a :: b :: groupPairs rest

/-- Digit grouping of the locale `en-IN`: the lowest three digits form a group,
the digits above them form groups of two. Input and output are most
significant digit first. -/
def groupIndian (digits : List Char) : List Char :=
  let r := digits.reverse
  (r.take 3 ++ groupPairs (r.drop 3)).reverse

/-- The fraction digits of a count of thousandths below 1000: three digits,
trailing zeros removed (the minimum number of fraction digits is 0). -/
def fractionDigits (thousandths : Nat) : List Char :=
  let padded := (Nat.toDigits 10 (1000 + thousandths)).drop 1
  (padded.reverse.dropWhile (fun c => c = '0')).reverse

/-- The call `x.toLocaleString("en-IN")` with the default options, as the
engine formats a Number: the shortest decimal that reads back as `x` is rounded
to at most three fraction digits, a half going away from zero
(`roundedThousandths`); no trailing zeros, the integer digits grouped as in
`groupIndian`, a minus sign for a negative value (the negative zero
included). -/
def toLocaleStringEnIN : JsNumber → String
  | .nan => "NaN"
  | .infinity negative => (if negative then "-" else "") ++ "∞"
  | .finite negative k =>
    let thousandths := roundedThousandths k
    let intPart := groupIndian (Nat.toDigits 10 (thousandths / 1000))
    let frac := fractionDigits (thousandths % 1000)
    (if negative then "-" else "") ++ String.mk intPart ++
      (if frac.isEmpty then "" else "." ++ String.mk frac)

/-! ## The transfer form (`transferPage/page.jsx`) -/

/-- The object held by the `formData` state: the three raw field strings. -/
structure FormData where
  accountNumber : String
  beneficiaryName : String
  amount : String
  deriving DecidableEq, Repr

/-- The object held by the `errors` state, and the shape of `newErrors`. -/
structure FieldErrors where
  accountNumber : String
  beneficiaryName : String
  amount : String
  deriving DecidableEq, Repr

/-- The two pieces of React state of the component `Transfer`. -/
structure TransferState where
  formData : FormData
  errors : FieldErrors
  deriving DecidableEq, Repr

/-- The state of the first render: the arguments of the two `useState` calls. -/
def initialState : TransferState :=
  { formData := { accountNumber := "", beneficiaryName := "", amount := "" }
    errors := { accountNumber := "", beneficiaryName := "", amount := "" } }

/-- The block "Account number validation" of `validateForm`, acting on the pair
`(newErrors, isValid)`. -/
def checkAccountNumber (formData : FormData) (acc : FieldErrors × Bool) : FieldErrors × Bool :=
  if !truthy formData.accountNumber then
    ({ acc.1 with accountNumber := "Account number is required" }, false)
  else if !testAccountRegex formData.accountNumber then
    ({ acc.1 with accountNumber := "Account number must be 10-16 digits" }, false)
  else acc

/-- The block "Beneficiary name validation" of `validateForm`. -/
def checkBeneficiaryName (formData : FormData) (acc : FieldErrors × Bool) : FieldErrors × Bool :=
  if !truthy (trim formData.beneficiaryName) then
    ({ acc.1 with beneficiaryName := "Beneficiary name is required" }, false)
  else if jsLength (trim formData.beneficiaryName) < 3 then
    ({ acc.1 with beneficiaryName := "Name must be at least 3 characters" }, false)
  else acc

/-- The block "Amount validation" of `validateForm`. -/
def checkAmount (formData : FormData) (acc : FieldErrors × Bool) : FieldErrors × Bool :=
  if !truthy formData.amount then
    ({ acc.1 with amount := "Amount is required" }, false)
  else if jsLe (parseFloat formData.amount) zero then
    ({ acc.1 with amount := "Amount must be greater than 0" }, false)
  else if jsGt (parseFloat formData.amount) balanceCeiling then
    ({ acc.1 with amount := "Insufficient balance" }, false)
  else acc

/-- The function `validateForm`: start from empty messages and `isValid = true`,
run the three blocks in order, store the messages with `setErrors(newErrors)`
and return `isValid`. The result is the state after the call and the returned
boolean. -/
def validateForm (st : TransferState) : TransferState × Bool :=
  let start : FieldErrors × Bool :=
    ({ accountNumber := "", beneficiaryName := "", amount := "" }, true)
  let checked :=
    checkAmount st.formData (checkBeneficiaryName st.formData (checkAccountNumber st.formData start))
  ({ st with errors := checked.1 }, checked.2)

/-- What a timer started by the component does when it fires. -/
inductive TimerAction
  | navigate (path : String)
  deriving DecidableEq, Repr

/-- Calls that `handleSubmit` makes outside the component state. -/
inductive Effect
  | preventDefault
  | toast (title description : String)
  | setTimeout (action : TimerAction) (delayMs : Nat)
  deriving DecidableEq, Repr

/-- The function `handleSubmit`: the resulting state and the calls made, in
program order. The template literal of the description is a concatenation;
its first three characters are those of the source file. -/
def handleSubmit (st : TransferState) : TransferState × List Effect :=
  let validated := validateForm st
  if validated.2 then
    ({ validated.1 with
        formData := { accountNumber := "", beneficiaryName := "", amount := "" } },
     [ Effect.preventDefault,
       Effect.toast "Transfer Successful!"
         ("â‚¹" ++ toLocaleStringEnIN (parseFloat st.formData.amount) ++ " transferred to " ++
           st.formData.beneficiaryName),
       Effect.setTimeout (TimerAction.navigate "/") 2000 ])
  else (validated.1, [Effect.preventDefault])

/-- The keys of `formData` and of `errors`; every call of `handleInputChange`
in the component passes one of these three as its `field`. -/
inductive Field
  | accountNumber
  | beneficiaryName
  | amount
  deriving DecidableEq, Repr

/-- Property read `formData[field]`. -/
def FormData.get (d : FormData) : Field → String
  | .accountNumber => d.accountNumber
  | .beneficiaryName => d.beneficiaryName
  | .amount => d.amount

/-- The object `{ ...prev, [field]: value }` for `formData`. -/
def FormData.set (d : FormData) (field : Field) (value : String) : FormData :=
  match field with
  | .accountNumber => { d with accountNumber := value }
  | .beneficiaryName => { d with beneficiaryName := value }
  | .amount => { d with amount := value }

/-- Property read `errors[field]`. -/
def FieldErrors.get (e : FieldErrors) : Field → String
  | .accountNumber => e.accountNumber
  | .beneficiaryName => e.beneficiaryName
  | .amount => e.amount

/-- The object `{ ...prev, [field]: value }` for `errors`. -/
def FieldErrors.set (e : FieldErrors) (field : Field) (value : String) : FieldErrors :=
  match field with
  | .accountNumber => { e with accountNumber := value }
  | .beneficiaryName => { e with beneficiaryName := value }
  | .amount => { e with amount := value }

/-- The function `handleInputChange`: store the value, and when the field has a
(truthy) error message replace that message by the empty string. -/
def handleInputChange (field : Field) (value : String) (st : TransferState) : TransferState :=
  { formData := st.formData.set field value
    errors := if truthy (st.errors.get field) then st.errors.set field "" else st.errors }

/-! ## The dashboard subscriptions (`dashboard/page.jsx`, component `Index`) -/

namespace Index

/-- What the effect of `Index` touches outside the component: whether the
listener registered with `onAuthStateChanged` is live, the live document
listeners registered with `onSnapshot` (a handle and the uid of the document
`users/<uid>`), the next free handle, and the paths given to `router.push`. -/
structure World where
  authListener : Bool
  snapshotListeners : List (Nat × String)
  nextHandle : Nat
  pushes : List String
  deriving DecidableEq, Repr

/-- Nothing registered, nothing pushed. -/
def World.initial : World :=
  { authListener := false, snapshotListeners := [], nextHandle := 0, pushes := [] }

/-- The function `unsubscribeSnapshot` that `onSnapshot` returned for a handle. -/
def unsubscribeSnapshot (handle : Nat) (w : World) : World :=
  { w with snapshotListeners := w.snapshotListeners.filter (fun l => l.1 ≠ handle) }

/-- The observer given to `onAuthStateChanged`. Without a user it pushes
`/login` and returns nothing. With a user it registers a document listener for
`users/<uid>` and returns the closure `() => unsubscribeSnapshot()`. The
result is the world after the call and the returned closure, if any. -/
def authObserver (currentUser : Option String) (w : World) : World × Option (World → World) :=
  match currentUser with
  | none => ({ w with pushes := w.pushes ++ ["/login"] }, none)
  | some uid =>
    ({ w with
        snapshotListeners := w.snapshotListeners ++ [(w.nextHandle, uid)]
        nextHandle := w.nextHandle + 1 },
     some (unsubscribeSnapshot w.nextHandle))

/-- What happens to the mounted view. -/
inductive Event
  | mount
  | authStateChanged (currentUser : Option String)
  | unmount
  deriving DecidableEq, Repr

/-- One event. On mount React runs the effect, which registers the auth
listener. On an auth-state change Firebase calls the observer, when it is still
registered; an observer is a function to `void`, so what it returns is dropped
by the caller. On unmount React runs the function the effect returned,
`() => unsubscribeAuth()`. -/
def step (w : World) : Event → World
  | .mount => { w with authListener := true }
  | .authStateChanged currentUser =>
    if w.authListener then (authObserver currentUser w).1 else w
  | .unmount => { w with authListener := false }

/-- A sequence of events from the initial world. -/
def run (events : List Event) : World :=
  events.foldl step World.initial

end Index

/-! ## The admin session gate (`chameleon_admin/app/Dashboard/page.jsx`) -/

namespace Dashboard

/-- The fields of the admin document that the page reads; a field may be absent. -/
structure AdminProfile where
  Name : Option String
  firstName : Option String
  lastName : Option String
  deriving DecidableEq, Repr

/-- Outcome of `await getDoc(dref)`: a snapshot that exists (with its data), a
snapshot that does not exist, or a rejection. -/
inductive FetchOutcome
  | found (data : AdminProfile)
  | missing
  | rejected
  deriving DecidableEq, Repr

/-- Outcome of `await signOut(auth)`. -/
inductive SignOutOutcome
  | resolved
  | rejected
  deriving DecidableEq, Repr

/-- The calls the auth observer makes: state setters of the component and
calls into Firebase, the router, the toaster and the console. -/
inductive Call
  | setLoadingAuth (value : Bool)
  | setUid (uid : String)
  | setAdminLoading (value : Bool)
  | setAdmin (data : AdminProfile)
  | routerPush (path : String)
  | getDoc (collection id : String)
  | signOut
  | toastError (message : String)
  | consoleError (message : String)
  deriving DecidableEq, Repr

/-- The `else` branch of the `try` block, run when the snapshot does not exist:
`await signOut(auth)`, then the redirect and the toast. A rejected sign-out
throws at the `await`, so the two calls after it are not made and control
passes to the `catch` block. The result is the calls made and whether the
branch threw. -/
def notAuthorized (signedOut : SignOutOutcome) : List Call × Bool :=
  match signedOut with
  | .resolved =>
    ([Call.signOut, Call.routerPush "/admin/signin", Call.toastError "Not authorized as admin."],
     false)
  | .rejected => ([Call.signOut], true)

/-- The `try` block: the calls made and whether it threw. -/
def tryBlock (uid : String) (fetched : FetchOutcome) (signedOut : SignOutOutcome) :
    List Call × Bool :=
  match fetched with
  | .rejected => ([Call.getDoc "admin" uid], true)
  | .found data => ([Call.getDoc "admin" uid, Call.setAdmin data], false)
  | .missing =>
    let branch := notAuthorized signedOut
    (Call.getDoc "admin" uid :: branch.1, branch.2)

/-- The `catch` block. -/
def catchBlock : List Call :=
  [Call.consoleError "Failed fetching admin:", Call.toastError "Failed to load admin profile."]

/-- The observer given to `onAuthStateChanged`: all the calls of one run, in
program order, for the user of the callback (`none` for `null`, else its uid)
and the outcomes of the two awaited calls. -/
def authObserver (user : Option String) (fetched : FetchOutcome) (signedOut : SignOutOutcome) :
    List Call :=
  match user with
  | none => [Call.setLoadingAuth false, Call.routerPush "/admin/signin"]
  | some uid =>
    let attempt := tryBlock uid fetched signedOut
    [Call.setUid uid, Call.setLoadingAuth false, Call.setAdminLoading true] ++ attempt.1 ++
      (if attempt.2 then catchBlock else []) ++ [Call.setAdminLoading false]

/-- Whether a call is `signOut(auth)`. -/
def Call.isSignOut : Call → Bool
  | .signOut => true
  | _ => false

/-- Whether a call is a redirect, `router.push(...)`. -/
def Call.isRouterPush : Call → Bool
  | .routerPush _ => true
  | _ => false

/-- Whether a call is an error notification, `toast.error(...)`. -/
def Call.isToastError : Call → Bool
  | .toastError _ => true
  | _ => false

/-- Whether a call is `setAdmin(...)`. -/
def Call.isSetAdmin : Call → Bool
  | .setAdmin _ => true
  | _ => false

/-- The four pieces of state the observer writes. -/
structure GateState where
  loadingAuth : Bool
  adminLoading : Bool
  admin : Option AdminProfile
  uid : Option String
  deriving DecidableEq, Repr

/-- The state of the first render. -/
def GateState.initial : GateState :=
  { loadingAuth := true, adminLoading := false, admin := none, uid := none }

/-- Effect of one call on the state: the setters write, the others leave it. -/
def applyCall (st : GateState) : Call → GateState
  | .setLoadingAuth value => { st with loadingAuth := value }
  | .setUid uid => { st with uid := some uid }
  | .setAdminLoading value => { st with adminLoading := value }
  | .setAdmin data => { st with admin := some data }
  | _ => st

/-- The state after a list of calls. -/
def applyCalls (st : GateState) (calls : List Call) : GateState :=
  calls.foldl applyCall st

/-- The session is displayed as an authorised admin once a profile is held. -/
def GateState.authorized (st : GateState) : Bool :=
  st.admin.isSome

end Dashboard

/-! ## Runs of the transfer form -/

/-- What the user does to the transfer form: an edit of one field through
`handleInputChange`, or a submit through `handleSubmit`. -/
inductive Action
  | input (field : Field) (value : String)
  | submit
  deriving DecidableEq, Repr

/-- The state after one action. -/
def applyAction (st : TransferState) : Action → TransferState
  | .input field value => handleInputChange field value st
  | .submit => (handleSubmit st).1

/-- The state reached from the first render by a sequence of actions. -/
def runActions (actions : List Action) : TransferState :=
  actions.foldl applyAction initialState

/-! ## JavaScript strings and numbers, continued -/

/-- The string `s.slice(0, n)`, which is the first `n` UTF-16 code units of
`s`, read on code points: a code point is kept while its code units fit. (When
the cut falls inside a surrogate pair JavaScript keeps the first half of the
pair, which a Lean string cannot hold; that half is left out here.) -/
def sliceFromStart : Nat → List Char → List Char
  | _, [] => []
  | n, c :: cs => if utf16Size c ≤ n then c :: sliceFromStart (n - utf16Size c) cs else []

/-- JavaScript truthiness of a Number: NaN and the two zeros are falsy. -/
def JsNumber.truthy : JsNumber → Bool
  | .nan => false
  | .infinity _ => true
  | .finite _ k => decide (k ≠ 0)

/-- The operator `a || b` on a value that is a Number or absent (`undefined`),
with a Number on the right. -/
def orNumber (a : Option JsNumber) (b : JsNumber) : JsNumber :=
  match a with
  | some x => if x.truthy then x else b
  | none => b

/-- The function `Math.abs` on a value that is a Number or absent; `undefined`
converts to NaN. -/
def mathAbs : Option JsNumber → JsNumber
  | none => JsNumber.nan
  | some JsNumber.nan => JsNumber.nan
  | some (JsNumber.infinity _) => JsNumber.infinity false
  | some (JsNumber.finite _ k) => JsNumber.finite false k

/-- Fraction digits filled with zeros up to a minimum count. -/
def padFraction (minimum : Nat) (digits : List Char) : List Char :=
  digits ++ List.replicate (minimum - digits.length) '0'

/-- The call `x.toLocaleString("en-IN", options)` with the option
`minimumFractionDigits` set to `m`, for `m` up to 3: as `toLocaleStringEnIN`,
rounding the same shortest decimal, with at least `m` fraction digits (the
maximum stays 3). -/
def formatEnIN (minimumFractionDigits : Nat) : JsNumber → String
  | .nan => "NaN"
  | .infinity negative => (if negative then "-" else "") ++ "∞"
  | .finite negative k =>
    let thousandths := roundedThousandths k
    let intPart := groupIndian (Nat.toDigits 10 (thousandths / 1000))
    let frac := padFraction minimumFractionDigits (fractionDigits (thousandths % 1000))
    (if negative then "-" else "") ++ String.mk intPart ++
      (if frac.isEmpty then "" else "." ++ String.mk frac)

/-! ## The admin display name and initials (`chameleon_admin/app/Dashboard/page.jsx`) -/

namespace Dashboard

/-- The operator `a || b` on a value that is a string or absent (`undefined`),
with a string on the right: the left value when it is a non-empty string, else
the right one. -/
def orString (a : Option String) (b : String) : String :=
  match a with
  | some s => if truthy s then s else b
  | none => b

/-- The pieces of `s.split(/\s+/)`, scanning left to right: `current` holds, in
reverse, the characters of the piece being read, and `inSeparator` tells that
the characters just read belong to a match of `\s+`, which is greedy and so
takes the whole run of white space. A piece is closed where a separator
begins; the last piece is closed at the end of the input. The class `\s` is
the white space of `isWhiteSpace`. -/
def splitWhiteSpaceFrom : Bool → List Char → List Char → List (List Char)
  | _, current, [] => [current.reverse]
  | inSeparator, current, c :: rest =>
    if isWhiteSpace c then
      if inSeparator then splitWhiteSpaceFrom true current rest
      else current.reverse :: splitWhiteSpaceFrom true [] rest
    else splitWhiteSpaceFrom false (c :: current) rest

/-- The array `s.split(/\s+/)`. -/
def splitWhiteSpace (s : String) : List String :=
  (splitWhiteSpaceFrom false [] s.data).map String.mk

/-- The constant `displayName`:
`admin?.Name || (admin?.firstName || "") + " " + (admin?.lastName || "")`,
the right operand trimmed, `|| ""`. The profile is `none` for `null`. -/
def displayName (admin : Option AdminProfile) : String :=
  let fullName :=
    trim (orString (admin.bind AdminProfile.firstName) "" ++ " " ++
      orString (admin.bind AdminProfile.lastName) "")
  orString (some (orString (admin.bind AdminProfile.Name) fullName)) ""

/-- The constant `initials`, computed from `displayName`; `toUpperCase` stands
for `String.prototype.toUpperCase`, whose case table is not part of the
repository. An empty name gives the empty string. Otherwise the name is split
at white space and the empty pieces are filtered out; one word gives its first
two code units, upper-cased; else the first code unit of the first word and
the first code unit of the last word are joined and upper-cased. Reading
`parts[0][0]` when `parts` is empty throws a TypeError, which is the error
result. -/
def initials (toUpperCase : String → String) (displayName : String) : Except String String :=
  if !truthy displayName then Except.ok ""
  else
    let parts := (splitWhiteSpace displayName).filter truthy
    if parts.length = 1 then
      Except.ok (toUpperCase (String.mk (sliceFromStart 2 (parts.headD "").data)))
    else
      match parts.head?, parts.getLast? with
      | some first, some last =>
        Except.ok (toUpperCase
          (String.mk (sliceFromStart 1 first.data) ++ String.mk (sliceFromStart 1 last.data)))
      | _, _ => Except.error "TypeError: parts[0] is undefined"

/-- The calls the gate makes for one session that starts with a signed-in
user: the run of the observer for that user and, when that run called
`signOut` and the call resolved, the run that follows, since Firebase then
calls the observer, which stays registered until the component unmounts, once
more with `null`. The calls of the second run are listed after those of the
first; the two runs interleave at the `await`, which does not change how often
a call is made. A rejected sign-out leaves the user signed in, so no second run
follows it. -/
def sessionCalls (uid : String) (fetched : FetchOutcome) (signedOut : SignOutOutcome) :
    List Call :=
  let first := authObserver (some uid) fetched signedOut
  if first.any Call.isSignOut && decide (signedOut = SignOutOutcome.resolved) then
    first ++ authObserver none fetched signedOut
  else first

/-- A stand-in for `toUpperCase` on the letters `a` to `z`, for evaluating
`initials` on sample names; other characters are kept. -/
def asciiUpperCase (s : String) : String :=
  String.mk (s.data.map Char.toUpper)

end Dashboard

/-! ## The dashboard view (`dashboard/page.jsx`, component `Index`) -/

namespace Index

/-- An entry of `userData.transactions`. The text fields hold what React shows
for them (nothing when the field is absent); the amount may be absent. -/
structure Transaction where
  id : String
  type : String
  description : String
  date : String
  amount : Option JsNumber
  deriving DecidableEq, Repr

/-- An entry of `userData.fixedDeposits`. -/
structure FixedDeposit where
  id : String
  amount : Option JsNumber
  rate : String
  tenure : String
  maturityDate : String
  deriving DecidableEq, Repr

/-- An entry of `userData.documents`. -/
structure Document where
  id : String
  name : String
  type : String
  size : String
  deriving DecidableEq, Repr

/-- The data of the document `users/<uid>`, as far as the page reads it. Every
key may be absent (`none`). -/
structure UserData where
  uid : Option String
  firstName : Option String
  lastName : Option String
  accBalance : Option JsNumber
  transactions : Option (List Transaction)
  fixedDeposits : Option (List FixedDeposit)
  documents : Option (List Document)
  deriving DecidableEq, Repr

/-- The three pieces of React state of the component `Index`. -/
structure ViewState where
  loading : Bool
  showBalance : Bool
  userData : Option UserData
  deriving DecidableEq, Repr

/-- The state of the first render. -/
def ViewState.initial : ViewState :=
  { loading := true, showBalance := false, userData := none }

/-- What `onSnapshot` hands to its callback: a snapshot that exists, with its
data, or one that does not. -/
inductive DocSnapshot
  | existing (data : UserData)
  | missing
  deriving DecidableEq, Repr

/-- The callback given to `onSnapshot`: `setUserData(docSnap.data())` when the
document exists, else a console log; `setLoading(false)` in both cases. The
result is the state after the call and the lines logged. -/
def onSnapshotCallback (docSnap : DocSnapshot) (st : ViewState) : ViewState × List String :=
  match docSnap with
  | .existing data => ({ st with userData := some data, loading := false }, [])
  | .missing => ({ st with loading := false }, ["No user data found"])

/-- The state after a sequence of pushes of the live subscription. -/
def pushAll (st : ViewState) (pushes : List DocSnapshot) : ViewState :=
  pushes.foldl (fun s docSnap => (onSnapshotCallback docSnap s).1) st

/-- A card that lists items: the line shown for an empty list, or the rows. -/
inductive ListCard (α : Type)
  | placeholder (text : String)
  | rows (items : List α)
  deriving DecidableEq, Repr

/-- The test `items.length === 0 ? <p>text</p> : items.map(row)`. -/
def listCard {α β : Type} (text : String) (row : α → β) (items : List α) : ListCard β :=
  if items.length = 0 then ListCard.placeholder text else ListCard.rows (items.map row)

/-- The row of one transaction: whether it is a credit (icon and colours), the
description, the date, and the amount text. -/
structure TransactionRow where
  credit : Bool
  description : String
  date : String
  amountText : String
  deriving DecidableEq, Repr

/-- The card of one fixed deposit. -/
structure FixedDepositCard where
  tenure : String
  amountText : String
  rateText : String
  maturityText : String
  deriving DecidableEq, Repr

/-- The row of one document. -/
structure DocumentRow where
  name : String
  detail : String
  deriving DecidableEq, Repr

/-- The parts of the rendered dashboard that depend on the data. -/
structure DashboardView where
  welcome : String
  accountLabel : String
  balanceText : String
  transactions : ListCard TransactionRow
  fixedDeposits : ListCard FixedDepositCard
  documents : ListCard DocumentRow
  deriving DecidableEq, Repr

/-- What the component returns: the loading line, `null`, or the dashboard. -/
inductive Rendered
  | loadingPlaceholder
  | nothing
  | dashboard (view : DashboardView)
  deriving DecidableEq, Repr

/-- The text `Savings Account - ****` followed by `userData.uid.slice(0,4)`.
Reading `slice` on an absent `uid` throws a TypeError. -/
def accountLabel (userData : UserData) : Except String String :=
  match userData.uid with
  | some uid => Except.ok ("Savings Account - ****" ++ String.mk (sliceFromStart 4 uid.data))
  | none => Except.error "TypeError: userData.uid is undefined"

/-- The row of a transaction; the amount text is an optional `+`, the rupee
sign and `Math.abs(transaction.amount).toLocaleString("en-IN")`. -/
def transactionRow (transaction : Transaction) : TransactionRow :=
  { credit := decide (transaction.type = "credit")
    description := transaction.description
    date := transaction.date
    amountText := (if transaction.type = "credit" then "+" else "") ++ "₹" ++
      toLocaleStringEnIN (mathAbs transaction.amount) }

/-- The card of a fixed deposit. Calling `toLocaleString` on an absent
`fd.amount` throws a TypeError. -/
def fixedDepositCard (fd : FixedDeposit) : Except String FixedDepositCard :=
  match fd.amount with
  | some amount =>
    Except.ok
      { tenure := fd.tenure
        amountText := "₹" ++ toLocaleStringEnIN amount
        rateText := fd.rate ++ "% p.a."
        maturityText := "Matures on: " ++ fd.maturityDate }
  | none => Except.error "TypeError: fd.amount is undefined"

/-- The call `fixedDeposits.map(card)`, which stops at the first entry that
throws. -/
def fixedDepositCards : List FixedDeposit → Except String (List FixedDepositCard)
  | [] => Except.ok []
  | fd :: rest =>
    match fixedDepositCard fd with
    | Except.error e => Except.error e
    | Except.ok card =>
      match fixedDepositCards rest with
      | Except.error e => Except.error e
      | Except.ok cards => Except.ok (card :: cards)

/-- The row of a document. -/
def documentRow (doc : Document) : DocumentRow :=
  { name := doc.name, detail := doc.type ++ " • " ++ doc.size }

/-- The data-dependent parts of the returned tree, given the account label and
the fixed-deposit cards already computed: the extraction with fallbacks
(`userData.accBalance || 0`, `userData.transactions || []`, and so on) and the
texts and lists built from it. -/
def dashboardView (st : ViewState) (userData : UserData) (label : String)
    (cards : List FixedDepositCard) : DashboardView :=
  let balance := orNumber userData.accBalance zero
  let transactions := userData.transactions.getD []
  let fixedDeposits := userData.fixedDeposits.getD []
  let documents := userData.documents.getD []
  { welcome := "Welcome back, " ++ userData.firstName.getD "" ++ " " ++ userData.lastName.getD ""
    accountLabel := label
    balanceText := if st.showBalance then "₹" ++ formatEnIN 2 balance else "••••••••"
    transactions := listCard "No transactions yet." transactionRow transactions
    fixedDeposits :=
      if fixedDeposits.length = 0 then ListCard.placeholder "No active fixed deposits."
      else ListCard.rows cards
    documents := listCard "No documents found." documentRow documents }

/-- The body of the component after its hooks: the loading guard, the guard on
an empty state, and the returned tree, evaluated top to bottom. The two
expressions of the tree that can throw are the account label and the cards of
the fixed deposits (built only when the list is not empty); the result is an
error when one of them throws. -/
def render (st : ViewState) : Except String Rendered :=
  if st.loading then Except.ok Rendered.loadingPlaceholder
  else
    match st.userData with
    | none => Except.ok Rendered.nothing
    | some userData =>
      match accountLabel userData with
      | Except.error e => Except.error e
      | Except.ok label =>
        match (if (userData.fixedDeposits.getD []).length = 0 then Except.ok []
          else fixedDepositCards (userData.fixedDeposits.getD [])) with
        | Except.error e => Except.error e
        | Except.ok cards => Except.ok (Rendered.dashboard (dashboardView st userData label cards))

end Index

/-! # Theorems -/

/-! ## Lemmas on the string primitives -/

theorem matchRepeatToEnd_iff (p : Char → Bool) (cs : List Char) :
    ∀ lo hi : Nat, matchRepeatToEnd p lo hi cs = true ↔
      lo ≤ cs.length ∧ cs.length ≤ hi ∧ ∀ c ∈ cs, p c = true := by
  induction cs with
  | nil =>
    intro lo hi
    simp [matchRepeatToEnd]
  | cons c cs ih =>
    intro lo hi
    cases hi with
    | zero => simp [matchRepeatToEnd]
    | succ hi =>
      simp only [matchRepeatToEnd, Bool.and_eq_true, ih, List.length_cons, List.mem_cons,
        forall_eq_or_imp]
      constructor
      · rintro ⟨hc, h1, h2, h3⟩
        exact ⟨by omega, by omega, hc, h3⟩
      · rintro ⟨h1, h2, hc, h3⟩
        exact ⟨hc, by omega, by omega, h3⟩

/-- The regular expression of `validateForm` accepts exactly the strings of 10
to 16 decimal digits. -/
theorem testAccountRegex_iff (s : String) :
    testAccountRegex s = true ↔ IsTenToSixteenDigits s := by
  unfold testAccountRegex IsTenToSixteenDigits
  exact matchRepeatToEnd_iff isDecimalDigit s.data 10 16

theorem truthy_eq_false_iff (s : String) : truthy s = false ↔ s = "" := by
  obtain ⟨cs⟩ := s
  cases cs with
  | nil => simp [truthy]
  | cons c cs =>
    simp only [truthy, List.isEmpty_cons, Bool.not_false, Bool.true_eq_false, false_iff]
    intro h
    have := congrArg String.data h
    simp at this

theorem truthy_eq_true_iff (s : String) : truthy s = true ↔ s ≠ "" := by
  have h := truthy_eq_false_iff s
  cases ht : truthy s
  · simpa using h.mp ht
  · simp only [true_iff]
    intro hs
    rw [h.mpr hs] at ht
    exact Bool.false_ne_true ht

/-- The trimmed string is a contiguous part of the string. -/
theorem trim_infix (s : String) : (trim s).data <:+: s.data := by
  have h1 : trimEnd (trimStart s.data) <+: trimStart s.data := by
    unfold trimEnd
    exact List.rdropWhile_prefix isWhiteSpace _
  have h2 : trimStart s.data <:+ s.data := List.dropWhile_suffix isWhiteSpace
  exact h1.isInfix.trans h2.isInfix

/-- The trimmed string does not end with white space. -/
theorem trim_no_trailing (s : String) (c : Char) (h : (trim s).data.getLast? = some c) :
    isWhiteSpace c = false := by
  have hne : trimEnd (trimStart s.data) ≠ [] := by
    intro he
    simp only [trim, he, List.getLast?_nil] at h
    cases h
  have hl := List.rdropWhile_last_not isWhiteSpace (trimStart s.data) hne
  have hc : (trimEnd (trimStart s.data)).getLast hne = c := by
    have := List.getLast?_eq_getLast _ hne
    simp only [trim] at h
    rw [this] at h
    exact Option.some.inj h
  rw [← hc]
  simpa using hl

/-- The trimmed string does not start with white space. -/
theorem trim_no_leading (s : String) (c : Char) (h : (trim s).data.head? = some c) :
    isWhiteSpace c = false := by
  have hpre : trimEnd (trimStart s.data) <+: trimStart s.data := by
    unfold trimEnd
    exact List.rdropWhile_prefix isWhiteSpace _
  simp only [trim] at h
  obtain ⟨t, ht⟩ := hpre
  cases hx : trimEnd (trimStart s.data) with
  | nil => rw [hx] at h; cases h
  | cons x xs =>
    rw [hx] at h ht
    simp only [List.head?_cons, Option.some.injEq] at h
    subst h
    have hhead : (trimStart s.data).head? = some x := by
      rw [← ht]; rfl
    unfold trimStart at hhead
    have := List.head?_dropWhile_not isWhiteSpace s.data
    rw [hhead] at this
    simpa using this

/-- Values of `roundToDouble` at the ends of the binary64 range: a tie between
zero and the least subnormal goes to zero, a tie between the first two
subnormals goes to the even one, the largest finite value is kept, and the
tie above it becomes an infinity. -/
theorem roundToDouble_samples :
    roundToDouble false 1 (1 <<< 1075) = JsNumber.finite false 0 ∧
    roundToDouble false 3 (1 <<< 1075) = JsNumber.finite false 2 ∧
    roundToDouble false 5 (1 <<< 1076) = JsNumber.finite false 1 ∧
    roundToDouble false ((1 <<< 1024) - (1 <<< 971)) 1 =
      JsNumber.finite false (((1 <<< 53) - 1) <<< 2045) ∧
    roundToDouble false ((1 <<< 1024) - (1 <<< 970) - 1) 1 =
      JsNumber.finite false (((1 <<< 53) - 1) <<< 2045) ∧
    roundToDouble true ((1 <<< 1024) - (1 <<< 970)) 1 = JsNumber.infinity true ∧
    roundToDouble false 12584050 100 = balanceCeiling := by
  refine ⟨by decide, by decide, by decide, by decide, by decide, by decide, by decide⟩

/-- Values of `parseFloat` on sample texts: the nearest binary64 value, ties to
even, and NaN without a numeric prefix. -/
theorem parseFloat_samples :
    parseFloat "500" = JsNumber.finite false (500 <<< 1074) ∧
    parseFloat "125840.50" = balanceCeiling ∧
    parseFloat "  -2.5e1xyz" = JsNumber.finite true (25 <<< 1074) ∧
    parseFloat "0.1" = JsNumber.finite false (3602879701896397 <<< 1019) ∧
    parseFloat "9007199254740993" = JsNumber.finite false (9007199254740992 <<< 1074) ∧
    parseFloat "9007199254740995" = JsNumber.finite false (9007199254740996 <<< 1074) ∧
    parseFloat "5.e-1" = JsNumber.finite false (1 <<< 1073) ∧
    parseFloat "-Infinity" = JsNumber.infinity true ∧
    parseFloat "-0" = JsNumber.finite true 0 ∧
    parseFloat "." = JsNumber.nan ∧
    parseFloat "abc" = JsNumber.nan := by
  refine ⟨by decide, by decide, by decide, by decide, by decide, by decide, by decide,
    by decide, by decide, by decide, by decide⟩

/-- The function `tenPow` is the power of ten. -/
theorem tenPow_eq (t : Nat) : tenPow t = 10 ^ t := by
  unfold tenPow
  rw [← pow_mul, ← pow_add, Nat.div_add_mod]

/-- Values of `shortestDecimal`, in multiples of `10 ^ (-1074)`: the Numbers
nearest to 0.1, 1.0005, 1e23 and 2/3 have the shortest decimals 0.1, 1.0005,
1e23 and 0.6666666666666666, the least subnormal has 5e-324, and an integer
below `2 ^ 53` is its own shortest decimal. -/
theorem shortestDecimal_samples :
    parseFloat "0.1" = JsNumber.finite false (3602879701896397 <<< 1019) ∧
    shortestDecimal (3602879701896397 <<< 1019) = tenPow 1073 ∧
    parseFloat "1.0005" = JsNumber.finite false (4505851427184181 <<< 1022) ∧
    shortestDecimal (4505851427184181 <<< 1022) = 10005 * tenPow 1070 ∧
    parseFloat "1e23" = JsNumber.finite false (5960464477539062 <<< 1098) ∧
    shortestDecimal (5960464477539062 <<< 1098) = tenPow 1097 ∧
    shortestDecimal (6004799503160661 <<< 1021) = 6666666666666666 * tenPow 1058 ∧
    shortestDecimal 1 = 5 * tenPow 750 ∧
    shortestDecimal (9007199254740991 <<< 1074) = 9007199254740991 * tenPow 1074 := by
  refine ⟨by decide, by decide, by decide, by decide, by decide, by decide, by decide,
    by decide, by decide⟩

/-- Values of `toLocaleString("en-IN")` on sample numbers. -/
theorem toLocaleStringEnIN_samples :
    toLocaleStringEnIN (parseFloat "500") = "500" ∧
    toLocaleStringEnIN (parseFloat "1000") = "1,000" ∧
    toLocaleStringEnIN (parseFloat "125840.50") = "1,25,840.5" ∧
    toLocaleStringEnIN (parseFloat "12345678.9996") = "1,23,45,679" ∧
    toLocaleStringEnIN (parseFloat "1234.5678") = "1,234.568" ∧
    toLocaleStringEnIN (parseFloat "0.25") = "0.25" ∧
    toLocaleStringEnIN JsNumber.nan = "NaN" := by
  refine ⟨by decide, by decide, by decide, by decide, by decide, by decide, by decide⟩

/-- The rounding of `toLocaleString("en-IN")` is that of the shortest decimal:
1.0005 and 1.4445 go up although the Numbers nearest to them lie below them,
and 1e23 prints as a one and 23 zeros. -/
theorem toLocaleStringEnIN_rounding_samples :
    toLocaleStringEnIN (parseFloat "1.0005") = "1.001" ∧
    toLocaleStringEnIN (parseFloat "1.4445") = "1.445" ∧
    toLocaleStringEnIN (parseFloat "1.0004") = "1" ∧
    toLocaleStringEnIN (parseFloat "0.0005") = "0.001" ∧
    toLocaleStringEnIN (parseFloat "99999.9995") = "1,00,000" ∧
    toLocaleStringEnIN (parseFloat "0.30000000000000004") = "0.3" ∧
    toLocaleStringEnIN (parseFloat "1e-7") = "0" ∧
    toLocaleStringEnIN (parseFloat "1e23") = "1,00,00,00,00,00,00,00,00,00,00,000" := by
  refine ⟨by decide, by decide, by decide, by decide, by decide, by decide, by decide,
    by decide⟩

/-- Values of `toLocaleString("en-IN")` with two fraction digits at least. -/
theorem formatEnIN_samples :
    formatEnIN 2 (parseFloat "1.0005") = "1.001" ∧
    formatEnIN 2 (parseFloat "125840.5") = "1,25,840.50" ∧
    formatEnIN 2 zero = "0.00" := by
  refine ⟨by decide, by decide, by decide⟩

/-! ## Lemmas on the three blocks of `validateForm` -/

theorem checkBeneficiaryName_accountNumber (d : FormData) (acc : FieldErrors × Bool) :
    (checkBeneficiaryName d acc).1.accountNumber = acc.1.accountNumber := by
  unfold checkBeneficiaryName
  split_ifs <;> rfl

theorem checkAmount_accountNumber (d : FormData) (acc : FieldErrors × Bool) :
    (checkAmount d acc).1.accountNumber = acc.1.accountNumber := by
  unfold checkAmount
  split_ifs <;> rfl

theorem checkAmount_beneficiaryName (d : FormData) (acc : FieldErrors × Bool) :
    (checkAmount d acc).1.beneficiaryName = acc.1.beneficiaryName := by
  unfold checkAmount
  split_ifs <;> rfl

theorem checkAccountNumber_beneficiaryName (d : FormData) (acc : FieldErrors × Bool) :
    (checkAccountNumber d acc).1.beneficiaryName = acc.1.beneficiaryName := by
  unfold checkAccountNumber
  split_ifs <;> rfl

theorem checkAccountNumber_amount (d : FormData) (acc : FieldErrors × Bool) :
    (checkAccountNumber d acc).1.amount = acc.1.amount := by
  unfold checkAccountNumber
  split_ifs <;> rfl

theorem checkBeneficiaryName_amount (d : FormData) (acc : FieldErrors × Bool) :
    (checkBeneficiaryName d acc).1.amount = acc.1.amount := by
  unfold checkBeneficiaryName
  split_ifs <;> rfl

/-- The message the account-number block leaves, by cases on the value. -/
theorem checkAccountNumber_message (d : FormData) (acc : FieldErrors × Bool) :
    (checkAccountNumber d acc).1.accountNumber =
      if d.accountNumber = "" then "Account number is required"
      else if testAccountRegex d.accountNumber = true then acc.1.accountNumber
      else "Account number must be 10-16 digits" := by
  unfold checkAccountNumber
  by_cases h : d.accountNumber = ""
  · simp [h, show truthy "" = false from rfl]
  · have ht := (truthy_eq_true_iff _).mpr h
    cases hr : testAccountRegex d.accountNumber <;> simp [h, ht, hr]

/-- The message the beneficiary-name block leaves, by cases on the value. -/
theorem checkBeneficiaryName_message (d : FormData) (acc : FieldErrors × Bool) :
    (checkBeneficiaryName d acc).1.beneficiaryName =
      if trim d.beneficiaryName = "" then "Beneficiary name is required"
      else if jsLength (trim d.beneficiaryName) < 3 then "Name must be at least 3 characters"
      else acc.1.beneficiaryName := by
  unfold checkBeneficiaryName
  by_cases h : trim d.beneficiaryName = ""
  · simp [h, show truthy "" = false from rfl]
  · have ht := (truthy_eq_true_iff _).mpr h
    by_cases hl : jsLength (trim d.beneficiaryName) < 3 <;> simp [h, ht, hl]

/-- The message the amount block leaves, by cases on the value. -/
theorem checkAmount_message (d : FormData) (acc : FieldErrors × Bool) :
    (checkAmount d acc).1.amount =
      if d.amount = "" then "Amount is required"
      else if jsLe (parseFloat d.amount) zero = true then "Amount must be greater than 0"
      else if jsGt (parseFloat d.amount) balanceCeiling = true then "Insufficient balance"
      else acc.1.amount := by
  unfold checkAmount
  by_cases h : d.amount = ""
  · simp [h, show truthy "" = false from rfl]
  · have ht := (truthy_eq_true_iff _).mpr h
    cases h1 : jsLe (parseFloat d.amount) zero <;>
      cases h2 : jsGt (parseFloat d.amount) balanceCeiling <;> simp [h, ht, h1, h2]

/-- The flag after the account-number block. -/
theorem checkAccountNumber_valid (d : FormData) (acc : FieldErrors × Bool) :
    (checkAccountNumber d acc).2 =
      (acc.2 && decide (d.accountNumber ≠ "") && testAccountRegex d.accountNumber) := by
  unfold checkAccountNumber
  by_cases h : d.accountNumber = ""
  · simp [h, show truthy "" = false from rfl]
  · have ht := (truthy_eq_true_iff _).mpr h
    cases hr : testAccountRegex d.accountNumber <;> simp [h, ht, hr]

/-- The flag after the beneficiary-name block. -/
theorem checkBeneficiaryName_valid (d : FormData) (acc : FieldErrors × Bool) :
    (checkBeneficiaryName d acc).2 =
      (acc.2 && decide (trim d.beneficiaryName ≠ "") &&
        decide (3 ≤ jsLength (trim d.beneficiaryName))) := by
  unfold checkBeneficiaryName
  by_cases h : trim d.beneficiaryName = ""
  · simp [h, show truthy "" = false from rfl]
  · have ht := (truthy_eq_true_iff _).mpr h
    by_cases hl : jsLength (trim d.beneficiaryName) < 3
    · simp [h, ht, hl]
    · simp [h, ht, hl, Nat.le_of_not_lt hl]

/-- The flag after the amount block. -/
theorem checkAmount_valid (d : FormData) (acc : FieldErrors × Bool) :
    (checkAmount d acc).2 =
      (acc.2 && decide (d.amount ≠ "") && !jsLe (parseFloat d.amount) zero &&
        !jsGt (parseFloat d.amount) balanceCeiling) := by
  unfold checkAmount
  by_cases h : d.amount = ""
  · simp [h, show truthy "" = false from rfl]
  · have ht := (truthy_eq_true_iff _).mpr h
    cases h1 : jsLe (parseFloat d.amount) zero <;>
      cases h2 : jsGt (parseFloat d.amount) balanceCeiling <;> simp [h, ht, h1, h2]

/-- The account-number message stored by `validateForm`. -/
theorem validateForm_accountNumber (st : TransferState) :
    (validateForm st).1.errors.accountNumber =
      if st.formData.accountNumber = "" then "Account number is required"
      else if testAccountRegex st.formData.accountNumber = true then ""
      else "Account number must be 10-16 digits" := by
  simp only [validateForm, checkAmount_accountNumber, checkBeneficiaryName_accountNumber,
    checkAccountNumber_message]

/-- The beneficiary-name message stored by `validateForm`. -/
theorem validateForm_beneficiaryName (st : TransferState) :
    (validateForm st).1.errors.beneficiaryName =
      if trim st.formData.beneficiaryName = "" then "Beneficiary name is required"
      else if jsLength (trim st.formData.beneficiaryName) < 3 then
        "Name must be at least 3 characters"
      else "" := by
  simp only [validateForm, checkAmount_beneficiaryName, checkBeneficiaryName_message,
    checkAccountNumber_beneficiaryName]

/-- The amount message stored by `validateForm`. -/
theorem validateForm_amount (st : TransferState) :
    (validateForm st).1.errors.amount =
      if st.formData.amount = "" then "Amount is required"
      else if jsLe (parseFloat st.formData.amount) zero = true then
        "Amount must be greater than 0"
      else if jsGt (parseFloat st.formData.amount) balanceCeiling = true then
        "Insufficient balance"
      else "" := by
  simp only [validateForm, checkAmount_message, checkBeneficiaryName_amount,
    checkAccountNumber_amount]

/-- The boolean returned by `validateForm`. -/
theorem validateForm_valid (st : TransferState) :
    (validateForm st).2 = true ↔
      (st.formData.accountNumber ≠ "" ∧ testAccountRegex st.formData.accountNumber = true) ∧
      (trim st.formData.beneficiaryName ≠ "" ∧ 3 ≤ jsLength (trim st.formData.beneficiaryName)) ∧
      (st.formData.amount ≠ "" ∧ jsLe (parseFloat st.formData.amount) zero = false ∧
        jsGt (parseFloat st.formData.amount) balanceCeiling = false) := by
  simp only [validateForm, checkAmount_valid, checkBeneficiaryName_valid,
    checkAccountNumber_valid, Bool.and_eq_true, decide_eq_true_eq, Bool.true_and,
    Bool.not_eq_true', ne_eq]
  tauto

/-- The form values are not written by `validateForm`. -/
theorem validateForm_formData (st : TransferState) :
    (validateForm st).1.formData = st.formData := rfl

/-! ## Lemmas on the comparisons of `validateForm` -/

/-- A value that is `> 0` is not `<= 0`. -/
theorem jsLe_zero_of_jsGt_zero (a : JsNumber) (h : jsGt a zero = true) : jsLe a zero = false := by
  unfold jsGt at h
  unfold jsLe
  split at h <;> simp_all

/-- A value that is `<= 125840.50` is not `> 125840.50`. -/
theorem jsGt_ceiling_of_jsLe_ceiling (a : JsNumber) (h : jsLe a balanceCeiling = true) :
    jsGt a balanceCeiling = false := by
  unfold jsLe at h
  unfold jsGt
  split at h <;> simp_all

/-- A value that is `> 125840.50` is not `<= 0`, so the second test of the
amount block cannot hide it. -/
theorem jsLe_zero_of_jsGt_ceiling (a : JsNumber) (h : jsGt a balanceCeiling = true) :
    jsLe a zero = false := by
  cases a with
  | nan => rfl
  | infinity negative => cases negative <;> simp_all [jsGt, jsLe, JsNumber.lessThan, zero, balanceCeiling]
  | finite negative k =>
    cases negative
    · simp only [jsGt, JsNumber.lessThan, balanceCeiling] at h
      simp only [jsLe, JsNumber.lessThan, zero]
      have hk : 0 < k := by
        by_contra hk
        have : k = 0 := by omega
        subst this
        simp at h
      simp [hk]
    · simp [jsGt, JsNumber.lessThan, balanceCeiling] at h

/-- The operation `Number::lessThan` is undefined only when an operand is NaN. -/
theorem lessThan_ne_none (a b : JsNumber) (ha : a ≠ JsNumber.nan) (hb : b ≠ JsNumber.nan) :
    JsNumber.lessThan a b ≠ none := by
  rcases a with _ | ⟨_ | _⟩ | ⟨_ | _, ka⟩ <;> rcases b with _ | ⟨_ | _⟩ | ⟨_ | _, kb⟩ <;>
    simp_all [JsNumber.lessThan]

/-- Only for NaN are `<=` and `>` both false. -/
theorem jsGt_of_not_jsLe (a b : JsNumber) (ha : a ≠ JsNumber.nan) (hb : b ≠ JsNumber.nan)
    (h : jsLe a b = false) : jsGt a b = true := by
  unfold jsLe at h
  unfold jsGt
  cases hl : JsNumber.lessThan b a with
  | some r => cases r <;> simp_all
  | none => exact absurd hl (lessThan_ne_none b a hb ha)

/-- Only for NaN are `>` and `<=` both false. -/
theorem jsLe_of_not_jsGt (a b : JsNumber) (ha : a ≠ JsNumber.nan) (hb : b ≠ JsNumber.nan)
    (h : jsGt a b = false) : jsLe a b = true := by
  unfold jsGt at h
  unfold jsLe
  cases hl : JsNumber.lessThan b a with
  | some r => cases r <;> simp_all
  | none => exact absurd hl (lessThan_ne_none b a hb ha)

theorem jsLength_empty : jsLength "" = 0 := rfl

/-! ## The field validators -/

/-- C1 as stated fails on the empty account number: it does not match the
pattern, and its message is "Account number is required", not the digit-format
message. -/
theorem accountNumber_empty_not_digit_format :
    ¬ IsTenToSixteenDigits "" ∧ testAccountRegex "" = false ∧
    (validateForm ⟨⟨"", "Jane Doe", "500"⟩, ⟨"", "", ""⟩⟩).1.errors.accountNumber =
      "Account number is required" ∧
    (validateForm ⟨⟨"", "Jane Doe", "500"⟩, ⟨"", "", ""⟩⟩).1.errors.accountNumber ≠
      "Account number must be 10-16 digits" := by
  refine ⟨by decide, by decide, by decide, by decide⟩

/-- C1 (amended): for every non-empty account number that is not a string of 10
to 16 decimal digits, `validateForm` fails with "Account number must be 10-16
digits"; for every string of 10 to 16 decimal digits it leaves the
accountNumber message empty; the empty account number fails with "Account
number is required". -/
theorem accountNumber_check (st : TransferState) :
    (st.formData.accountNumber ≠ "" → ¬ IsTenToSixteenDigits st.formData.accountNumber →
      (validateForm st).1.errors.accountNumber = "Account number must be 10-16 digits" ∧
      (validateForm st).2 = false) ∧
    (IsTenToSixteenDigits st.formData.accountNumber →
      (validateForm st).1.errors.accountNumber = "") ∧
    (st.formData.accountNumber = "" →
      (validateForm st).1.errors.accountNumber = "Account number is required" ∧
      (validateForm st).2 = false) := by
  have hv := validateForm_valid st
  refine ⟨fun hne hnot => ?_, fun hm => ?_, fun he => ?_⟩
  · have hr : testAccountRegex st.formData.accountNumber = false := by
      rw [← Bool.not_eq_true, testAccountRegex_iff]
      exact hnot
    refine ⟨by rw [validateForm_accountNumber, if_neg hne, hr]; rfl, ?_⟩
    rw [← Bool.not_eq_true, hv, hr]
    simp
  · have hr := (testAccountRegex_iff _).mpr hm
    have hne : st.formData.accountNumber ≠ "" := by
      intro he
      rw [he] at hm
      exact absurd hm (by decide)
    rw [validateForm_accountNumber, if_neg hne, if_pos hr]
  · refine ⟨by rw [validateForm_accountNumber, if_pos he], ?_⟩
    rw [← Bool.not_eq_true, hv]
    simp [he]

/-- C1 (amended), at "12345", at "1234567890" and at the empty string. -/
theorem accountNumber_check_witness :
    (validateForm ⟨⟨"12345", "Jane Doe", "500"⟩, ⟨"", "", ""⟩⟩).1.errors.accountNumber =
      "Account number must be 10-16 digits" ∧
    (validateForm ⟨⟨"1234567890", "Jane Doe", "500"⟩, ⟨"", "", ""⟩⟩).1.errors.accountNumber = "" ∧
    (validateForm ⟨⟨"", "Jane Doe", "500"⟩, ⟨"", "", ""⟩⟩).1.errors.accountNumber =
      "Account number is required" :=
  ⟨((accountNumber_check ⟨⟨"12345", "Jane Doe", "500"⟩, ⟨"", "", ""⟩⟩).1
      (by decide) (by decide)).1,
   (accountNumber_check ⟨⟨"1234567890", "Jane Doe", "500"⟩, ⟨"", "", ""⟩⟩).2.1 (by decide),
   ((accountNumber_check ⟨⟨"", "Jane Doe", "500"⟩, ⟨"", "", ""⟩⟩).2.2 rfl).1⟩

/-- C2: the empty amount gets "Amount is required"; for a non-empty amount
whose parsed value is `a`, `a <= 0` gets "Amount must be greater than 0",
`a > 125840.50` gets "Insufficient balance", and `0 < a <= 125840.50` leaves
the amount message empty. -/
theorem amount_check (st : TransferState) :
    (st.formData.amount = "" → (validateForm st).1.errors.amount = "Amount is required") ∧
    (st.formData.amount ≠ "" →
      (jsLe (parseFloat st.formData.amount) zero = true →
        (validateForm st).1.errors.amount = "Amount must be greater than 0") ∧
      (jsGt (parseFloat st.formData.amount) balanceCeiling = true →
        (validateForm st).1.errors.amount = "Insufficient balance") ∧
      (jsGt (parseFloat st.formData.amount) zero = true ∧
          jsLe (parseFloat st.formData.amount) balanceCeiling = true →
        (validateForm st).1.errors.amount = "")) := by
  refine ⟨fun he => by rw [validateForm_amount, if_pos he], fun hne => ⟨fun h => ?_, fun h => ?_,
    fun h => ?_⟩⟩
  · rw [validateForm_amount, if_neg hne, if_pos h]
  · have h0 := jsLe_zero_of_jsGt_ceiling _ h
    rw [validateForm_amount, if_neg hne, if_neg (by rw [h0]; exact Bool.false_ne_true), if_pos h]
  · have h0 := jsLe_zero_of_jsGt_zero _ h.1
    have h1 := jsGt_ceiling_of_jsLe_ceiling _ h.2
    rw [validateForm_amount, if_neg hne, if_neg (by rw [h0]; exact Bool.false_ne_true),
      if_neg (by rw [h1]; exact Bool.false_ne_true)]

/-- C2 at the amounts "", "-3", "0", "125840.51", "500" and "125840.50". -/
theorem amount_check_witness :
    (validateForm ⟨⟨"1234567890", "Jane Doe", ""⟩, ⟨"", "", ""⟩⟩).1.errors.amount =
      "Amount is required" ∧
    (validateForm ⟨⟨"1234567890", "Jane Doe", "-3"⟩, ⟨"", "", ""⟩⟩).1.errors.amount =
      "Amount must be greater than 0" ∧
    (validateForm ⟨⟨"1234567890", "Jane Doe", "0"⟩, ⟨"", "", ""⟩⟩).1.errors.amount =
      "Amount must be greater than 0" ∧
    (validateForm ⟨⟨"1234567890", "Jane Doe", "125840.51"⟩, ⟨"", "", ""⟩⟩).1.errors.amount =
      "Insufficient balance" ∧
    (validateForm ⟨⟨"1234567890", "Jane Doe", "500"⟩, ⟨"", "", ""⟩⟩).1.errors.amount = "" ∧
    (validateForm ⟨⟨"1234567890", "Jane Doe", "125840.50"⟩, ⟨"", "", ""⟩⟩).1.errors.amount = "" :=
  ⟨(amount_check ⟨⟨"1234567890", "Jane Doe", ""⟩, ⟨"", "", ""⟩⟩).1 rfl,
   ((amount_check ⟨⟨"1234567890", "Jane Doe", "-3"⟩, ⟨"", "", ""⟩⟩).2 (by decide)).1 (by decide),
   ((amount_check ⟨⟨"1234567890", "Jane Doe", "0"⟩, ⟨"", "", ""⟩⟩).2 (by decide)).1 (by decide),
   ((amount_check ⟨⟨"1234567890", "Jane Doe", "125840.51"⟩, ⟨"", "", ""⟩⟩).2
      (by decide)).2.1 (by decide),
   ((amount_check ⟨⟨"1234567890", "Jane Doe", "500"⟩, ⟨"", "", ""⟩⟩).2
      (by decide)).2.2 ⟨by decide, by decide⟩,
   ((amount_check ⟨⟨"1234567890", "Jane Doe", "125840.50"⟩, ⟨"", "", ""⟩⟩).2
      (by decide)).2.2 ⟨by decide, by decide⟩⟩

/-- C3: when the beneficiary name, trimmed, has fewer than 3 UTF-16 code units,
`validateForm` fails, with "Beneficiary name is required" when the trimmed name
is empty and "Name must be at least 3 characters" otherwise; when it has 3 or
more, the beneficiaryName message is left empty. -/
theorem beneficiaryName_check (st : TransferState) :
    (jsLength (trim st.formData.beneficiaryName) < 3 →
      (validateForm st).2 = false ∧
      (trim st.formData.beneficiaryName = "" →
        (validateForm st).1.errors.beneficiaryName = "Beneficiary name is required") ∧
      (trim st.formData.beneficiaryName ≠ "" →
        (validateForm st).1.errors.beneficiaryName = "Name must be at least 3 characters")) ∧
    (3 ≤ jsLength (trim st.formData.beneficiaryName) →
      (validateForm st).1.errors.beneficiaryName = "") := by
  refine ⟨fun hlt => ⟨?_, fun he => ?_, fun hne => ?_⟩, fun hge => ?_⟩
  · rw [← Bool.not_eq_true, validateForm_valid]
    intro h
    omega
  · rw [validateForm_beneficiaryName, if_pos he]
  · rw [validateForm_beneficiaryName, if_neg hne, if_pos hlt]
  · have hne : trim st.formData.beneficiaryName ≠ "" := by
      intro he
      rw [he, jsLength_empty] at hge
      omega
    rw [validateForm_beneficiaryName, if_neg hne, if_neg (by omega)]

/-- C3 at the names "   ", " Jo " and "  Ann ". -/
theorem beneficiaryName_check_witness :
    (validateForm ⟨⟨"1234567890", "   ", "500"⟩, ⟨"", "", ""⟩⟩).1.errors.beneficiaryName =
      "Beneficiary name is required" ∧
    (validateForm ⟨⟨"1234567890", " Jo ", "500"⟩, ⟨"", "", ""⟩⟩).1.errors.beneficiaryName =
      "Name must be at least 3 characters" ∧
    (validateForm ⟨⟨"1234567890", "  Ann ", "500"⟩, ⟨"", "", ""⟩⟩).1.errors.beneficiaryName = "" :=
  ⟨((beneficiaryName_check ⟨⟨"1234567890", "   ", "500"⟩, ⟨"", "", ""⟩⟩).1
      (by decide)).2.1 (by decide),
   ((beneficiaryName_check ⟨⟨"1234567890", " Jo ", "500"⟩, ⟨"", "", ""⟩⟩).1
      (by decide)).2.2 (by decide),
   (beneficiaryName_check ⟨⟨"1234567890", "  Ann ", "500"⟩, ⟨"", "", ""⟩⟩).2 (by decide)⟩

/-! ## `validateForm` as a whole, `handleSubmit` and `handleInputChange` -/

/-- C4 as stated fails on an amount that is not the text of a number: with the
amount "abc" `validateForm` returns true, while the parsed amount is NaN, which
is not `> 0`. -/
theorem validateForm_true_on_nan_amount :
    (validateForm ⟨⟨"1234567890", "Jane Doe", "abc"⟩, ⟨"", "", ""⟩⟩).2 = true ∧
    parseFloat "abc" = JsNumber.nan ∧
    jsGt (parseFloat "abc") zero = false ∧
    jsLe (parseFloat "abc") balanceCeiling = false := by
  refine ⟨by decide, by decide, by decide, by decide⟩

/-- C4 (amended): whenever `validateForm` returns true, the account number is a
string of 10 to 16 decimal digits, the trimmed beneficiary name has length at
least 3, and the amount is non-empty with a parsed value that is neither
`<= 0` nor `> 125840.50`; when that parsed value is a number (not NaN) it is
`> 0` and `<= 125840.50`. -/
theorem validateForm_true_wellFormed (st : TransferState) (h : (validateForm st).2 = true) :
    IsTenToSixteenDigits st.formData.accountNumber ∧
    3 ≤ jsLength (trim st.formData.beneficiaryName) ∧
    st.formData.amount ≠ "" ∧
    jsLe (parseFloat st.formData.amount) zero = false ∧
    jsGt (parseFloat st.formData.amount) balanceCeiling = false ∧
    (parseFloat st.formData.amount ≠ JsNumber.nan →
      jsGt (parseFloat st.formData.amount) zero = true ∧
      jsLe (parseFloat st.formData.amount) balanceCeiling = true) := by
  obtain ⟨⟨_, hacc⟩, ⟨_, hname⟩, hne, h0, hc⟩ := (validateForm_valid st).mp h
  refine ⟨(testAccountRegex_iff _).mp hacc, hname, hne, h0, hc, fun hnan => ⟨?_, ?_⟩⟩
  · exact jsGt_of_not_jsLe _ _ hnan (by decide) h0
  · exact jsLe_of_not_jsGt _ _ hnan (by decide) hc

/-- C4 (amended) at account "1234567890", name "Jane Doe", amount "500". -/
theorem validateForm_true_wellFormed_witness :
    (validateForm ⟨⟨"1234567890", "Jane Doe", "500"⟩, ⟨"", "", ""⟩⟩).2 = true ∧
    IsTenToSixteenDigits "1234567890" ∧
    3 ≤ jsLength (trim "Jane Doe") ∧
    jsGt (parseFloat "500") zero = true ∧
    jsLe (parseFloat "500") balanceCeiling = true :=
  have w := validateForm_true_wellFormed ⟨⟨"1234567890", "Jane Doe", "500"⟩, ⟨"", "", ""⟩⟩
    (by decide)
  ⟨by decide, w.1, w.2.1, (w.2.2.2.2.2 (by decide)).1, (w.2.2.2.2.2 (by decide)).2⟩

/-- A non-empty account number that is not a string of 10 to 16 digits gets the
digit-format message and makes `validateForm` return false. -/
theorem accountNumber_message_of_not_match (st : TransferState)
    (hne : st.formData.accountNumber ≠ "")
    (hnot : ¬ IsTenToSixteenDigits st.formData.accountNumber) :
    (validateForm st).1.errors.accountNumber = "Account number must be 10-16 digits" ∧
    (validateForm st).2 = false := by
  have hr : testAccountRegex st.formData.accountNumber = false := by
    rw [← Bool.not_eq_true, testAccountRegex_iff]
    exact hnot
  refine ⟨by rw [validateForm_accountNumber, if_neg hne, hr]; rfl, ?_⟩
  rw [← Bool.not_eq_true, validateForm_valid, hr]
  simp

/-- When `validateForm` returns true it stores three empty messages. -/
theorem validateForm_true_errors (st : TransferState) (h : (validateForm st).2 = true) :
    (validateForm st).1.errors = ⟨"", "", ""⟩ := by
  obtain ⟨⟨ha, hacc⟩, ⟨hn, hname⟩, hne, h0, hc⟩ := (validateForm_valid st).mp h
  have h1 := validateForm_accountNumber st
  have h2 := validateForm_beneficiaryName st
  have h3 := validateForm_amount st
  rw [if_neg ha, if_pos hacc] at h1
  rw [if_neg hn, if_neg (by omega)] at h2
  rw [if_neg hne, if_neg (by rw [h0]; exact Bool.false_ne_true),
    if_neg (by rw [hc]; exact Bool.false_ne_true)] at h3
  cases he : (validateForm st).1.errors with
  | mk a b c =>
    rw [he] at h1 h2 h3
    simp only at h1 h2 h3
    rw [h1, h2, h3]

/-- When `validateForm` returns false one of the stored messages is not empty. -/
theorem validateForm_false_errors (st : TransferState) (h : (validateForm st).2 = false) :
    (validateForm st).1.errors.accountNumber ≠ "" ∨
    (validateForm st).1.errors.beneficiaryName ≠ "" ∨
    (validateForm st).1.errors.amount ≠ "" := by
  by_contra hall
  simp only [not_or, not_not] at hall
  obtain ⟨h1, h2, h3⟩ := hall
  rw [validateForm_accountNumber] at h1
  rw [validateForm_beneficiaryName] at h2
  rw [validateForm_amount] at h3
  have hv : (validateForm st).2 = true := by
    rw [validateForm_valid]
    refine ⟨?_, ?_, ?_⟩
    · split_ifs at h1 with ha hr
      · exact absurd h1 (by decide)
      · exact ⟨ha, hr⟩
      · exact absurd h1 (by decide)
    · split_ifs at h2 with hn hl
      · exact absurd h2 (by decide)
      · exact absurd h2 (by decide)
      · exact ⟨hn, by omega⟩
    · split_ifs at h3 with he h0 hc
      · exact absurd h3 (by decide)
      · exact absurd h3 (by decide)
      · exact absurd h3 (by decide)
      · exact ⟨he, by simpa using h0, by simpa using hc⟩
  rw [h] at hv
  exact Bool.false_ne_true hv

/-- C5: on every form state on which validation passes, `handleSubmit` makes,
after `preventDefault`, exactly one toast, titled "Transfer Successful!", whose
description contains the amount formatted by `toLocaleString("en-IN")` and the
beneficiary name, and one `setTimeout` of 2000 ms that navigates to "/"; the
three field values (and the three messages) are empty afterwards. -/
theorem handleSubmit_valid (st : TransferState) (h : (validateForm st).2 = true) :
    (handleSubmit st).1.formData = ⟨"", "", ""⟩ ∧
    (handleSubmit st).1.errors = ⟨"", "", ""⟩ ∧
    (∃ description : String,
      (handleSubmit st).2 =
        [Effect.preventDefault, Effect.toast "Transfer Successful!" description,
          Effect.setTimeout (TimerAction.navigate "/") 2000] ∧
      description = "â‚¹" ++ toLocaleStringEnIN (parseFloat st.formData.amount) ++
        " transferred to " ++ st.formData.beneficiaryName ∧
      (toLocaleStringEnIN (parseFloat st.formData.amount)).data <:+: description.data ∧
      st.formData.beneficiaryName.data <:+: description.data) := by
  have he := validateForm_true_errors st h
  refine ⟨?_, ?_, _, ?_, rfl, ?_, ?_⟩
  · simp only [handleSubmit, h, if_true]
  · simp only [handleSubmit, h, if_true]
    exact he
  · simp only [handleSubmit, h, if_true]
  · refine ⟨"â‚¹".data, (" transferred to " ++ st.formData.beneficiaryName).data, ?_⟩
    simp only [String.data_append, List.append_assoc]
  · refine ⟨("â‚¹" ++ toLocaleStringEnIN (parseFloat st.formData.amount) ++
      " transferred to ").data, [], ?_⟩
    simp only [String.data_append, List.append_assoc, List.append_nil]

/-- C5 at account "1234567890", name "Jane Doe", amount "500": one toast, with
the description "â‚¹500 transferred to Jane Doe", and three empty fields; and
at the amount "1.0005", whose description shows "1.001". -/
theorem handleSubmit_valid_witness :
    (validateForm ⟨⟨"1234567890", "Jane Doe", "500"⟩, ⟨"", "", ""⟩⟩).2 = true ∧
    (handleSubmit ⟨⟨"1234567890", "Jane Doe", "500"⟩, ⟨"", "", ""⟩⟩).1.formData = ⟨"", "", ""⟩ ∧
    (handleSubmit ⟨⟨"1234567890", "Jane Doe", "500"⟩, ⟨"", "", ""⟩⟩).2 =
      [Effect.preventDefault,
        Effect.toast "Transfer Successful!" "â‚¹500 transferred to Jane Doe",
        Effect.setTimeout (TimerAction.navigate "/") 2000] ∧
    toLocaleStringEnIN (parseFloat "500") = "500" ∧
    (handleSubmit ⟨⟨"1234567890", "Jane Doe", "1.0005"⟩, ⟨"", "", ""⟩⟩).2 =
      [Effect.preventDefault,
        Effect.toast "Transfer Successful!" "â‚¹1.001 transferred to Jane Doe",
        Effect.setTimeout (TimerAction.navigate "/") 2000] :=
  have w := handleSubmit_valid ⟨⟨"1234567890", "Jane Doe", "500"⟩, ⟨"", "", ""⟩⟩ (by decide)
  ⟨by decide, w.1, by decide, by decide, by decide⟩

/-- C6: on every form state on which a field validator fails, `handleSubmit`
leaves the three field values as they were, makes no call besides
`preventDefault` (no toast, no timer), and stores the messages of
`validateForm`, one of which at least is not empty. -/
theorem handleSubmit_invalid (st : TransferState) (h : (validateForm st).2 = false) :
    (handleSubmit st).1.formData = st.formData ∧
    (handleSubmit st).2 = [Effect.preventDefault] ∧
    (handleSubmit st).1.errors = (validateForm st).1.errors ∧
    ((handleSubmit st).1.errors.accountNumber ≠ "" ∨
      (handleSubmit st).1.errors.beneficiaryName ≠ "" ∨
      (handleSubmit st).1.errors.amount ≠ "") := by
  have hs : handleSubmit st = ((validateForm st).1, [Effect.preventDefault]) := by
    simp only [handleSubmit, h, Bool.false_eq_true, if_false]
  rw [hs]
  exact ⟨rfl, rfl, rfl, validateForm_false_errors st h⟩

/-- C6 at account "12345", name "Jane Doe", amount "500". -/
theorem handleSubmit_invalid_witness :
    (validateForm ⟨⟨"12345", "Jane Doe", "500"⟩, ⟨"", "", ""⟩⟩).2 = false ∧
    (handleSubmit ⟨⟨"12345", "Jane Doe", "500"⟩, ⟨"", "", ""⟩⟩).1.formData =
      ⟨"12345", "Jane Doe", "500"⟩ ∧
    (handleSubmit ⟨⟨"12345", "Jane Doe", "500"⟩, ⟨"", "", ""⟩⟩).2 = [Effect.preventDefault] :=
  have w := handleSubmit_invalid ⟨⟨"12345", "Jane Doe", "500"⟩, ⟨"", "", ""⟩⟩ (by decide)
  ⟨by decide, w.1, w.2.1⟩

/-- C7 as stated fails when another field is invalid: from empty messages, with
the account number "12345" and the two other fields empty, a submit populates
all three entries, so the beneficiaryName and amount entries are not what they
were before. -/
theorem handleSubmit_fiveDigit_populates_all :
    IsFiveDigits "12345" ∧
    (handleSubmit ⟨⟨"12345", "", ""⟩, ⟨"", "", ""⟩⟩).1.errors =
      ⟨"Account number must be 10-16 digits", "Beneficiary name is required",
        "Amount is required"⟩ ∧
    (handleSubmit ⟨⟨"12345", "", ""⟩, ⟨"", "", ""⟩⟩).1.errors.beneficiaryName ≠
      (FieldErrors.mk "" "" "").beneficiaryName ∧
    (handleSubmit ⟨⟨"12345", "", ""⟩, ⟨"", "", ""⟩⟩).1.errors.amount ≠
      (FieldErrors.mk "" "" "").amount := by
  refine ⟨by decide, by decide, by decide, by decide⟩

/-- C7 (amended): for every form state whose account number is a 5-digit
string, a submit fails (values kept, no toast, no timer) and sets the
accountNumber entry to "Account number must be 10-16 digits"; the
beneficiaryName and amount entries are recomputed from the current values of
those fields, whatever the entries were before: each is empty when its field
is valid and is the message of that field otherwise. -/
theorem handleSubmit_fiveDigit (st : TransferState)
    (h5 : IsFiveDigits st.formData.accountNumber) :
    (handleSubmit st).1.formData = st.formData ∧
    (handleSubmit st).2 = [Effect.preventDefault] ∧
    (handleSubmit st).1.errors.accountNumber = "Account number must be 10-16 digits" ∧
    (handleSubmit st).1.errors.beneficiaryName =
      (if trim st.formData.beneficiaryName = "" then "Beneficiary name is required"
       else if jsLength (trim st.formData.beneficiaryName) < 3 then
         "Name must be at least 3 characters"
       else "") ∧
    (handleSubmit st).1.errors.amount =
      (if st.formData.amount = "" then "Amount is required"
       else if jsLe (parseFloat st.formData.amount) zero = true then
         "Amount must be greater than 0"
       else if jsGt (parseFloat st.formData.amount) balanceCeiling = true then
         "Insufficient balance"
       else "") ∧
    (∀ previous : FieldErrors,
      (handleSubmit { st with errors := previous }).1.errors = (handleSubmit st).1.errors) := by
  have hne : st.formData.accountNumber ≠ "" := by
    intro he
    rw [he] at h5
    exact absurd h5 (by decide)
  have hnot : ¬ IsTenToSixteenDigits st.formData.accountNumber := by
    intro hm
    have := hm.1
    have := h5.1
    omega
  obtain ⟨hmsg, hfalse⟩ := (accountNumber_message_of_not_match st hne hnot)
  have hs : ∀ s : TransferState, (validateForm s).2 = false →
      handleSubmit s = ((validateForm s).1, [Effect.preventDefault]) := by
    intro s hv
    simp only [handleSubmit, hv, Bool.false_eq_true, if_false]
  refine ⟨?_, ?_, ?_, ?_, ?_, fun previous => ?_⟩
  · rw [hs st hfalse]; rfl
  · rw [hs st hfalse]
  · rw [hs st hfalse]; exact hmsg
  · rw [hs st hfalse]; exact validateForm_beneficiaryName st
  · rw [hs st hfalse]; exact validateForm_amount st
  · have hfalse2 : (validateForm { st with errors := previous }).2 = false := hfalse
    rw [hs st hfalse, hs _ hfalse2]
    rfl

/-- C7 (amended) at account "12345" with a valid name and amount and two stale
messages: only the accountNumber entry is populated afterwards. -/
theorem handleSubmit_fiveDigit_witness :
    IsFiveDigits "12345" ∧
    (handleSubmit ⟨⟨"12345", "Jane Doe", "500"⟩, ⟨"", "", ""⟩⟩).1.errors =
      ⟨"Account number must be 10-16 digits", "", ""⟩ ∧
    (handleSubmit ⟨⟨"12345", "Jane Doe", "500"⟩,
        ⟨"", "Beneficiary name is required", "Amount is required"⟩⟩).1.errors =
      ⟨"Account number must be 10-16 digits", "", ""⟩ :=
  have w := handleSubmit_fiveDigit ⟨⟨"12345", "Jane Doe", "500"⟩, ⟨"", "", ""⟩⟩ (by decide)
  ⟨by decide, by decide,
   (w.2.2.2.2.2 ⟨"", "Beneficiary name is required", "Amount is required"⟩).trans (by decide)⟩

/-- C8: `handleInputChange f v` sets the value of `f` to `v`; every other
field keeps its value and its message; a non-empty message of `f` is replaced
by the empty string; and when `f` has no message the messages are unchanged as
a whole. -/
theorem handleInputChange_frame (st : TransferState) (f : Field) (v : String) :
    (handleInputChange f v st).formData.get f = v ∧
    (∀ g : Field, g ≠ f →
      (handleInputChange f v st).formData.get g = st.formData.get g ∧
      (handleInputChange f v st).errors.get g = st.errors.get g) ∧
    (st.errors.get f ≠ "" → (handleInputChange f v st).errors.get f = "") ∧
    (st.errors.get f = "" → (handleInputChange f v st).errors = st.errors) := by
  refine ⟨?_, fun g hg => ⟨?_, ?_⟩, fun hne => ?_, fun he => ?_⟩
  · cases f <;> rfl
  · cases f <;> cases g <;> first | rfl | exact absurd rfl hg
  · unfold handleInputChange
    by_cases ht : truthy (st.errors.get f) = true
    · simp only [ht, if_true]
      cases f <;> cases g <;> first | rfl | exact absurd rfl hg
    · simp only [ht, Bool.false_eq_true, if_false]
  · have ht := (truthy_eq_true_iff _).mpr hne
    simp only [handleInputChange, ht, if_true]
    cases f <;> rfl
  · have ht := (truthy_eq_false_iff _).mpr he
    simp only [handleInputChange, ht, Bool.false_eq_true, if_false]

/-- C8 on a state with messages on the account number and on the amount:
editing the account number clears its message and keeps the amount message;
editing the name, which has no message, keeps all messages. -/
theorem handleInputChange_frame_witness :
    handleInputChange Field.accountNumber "123456"
        ⟨⟨"12345", "Jane Doe", ""⟩, ⟨"Account number must be 10-16 digits", "", "Amount is required"⟩⟩ =
      ⟨⟨"123456", "Jane Doe", ""⟩, ⟨"", "", "Amount is required"⟩⟩ ∧
    (handleInputChange Field.beneficiaryName "J"
        ⟨⟨"12345", "Jane Doe", ""⟩,
          ⟨"Account number must be 10-16 digits", "", "Amount is required"⟩⟩).errors =
      ⟨"Account number must be 10-16 digits", "", "Amount is required"⟩ :=
  ⟨by decide,
   (handleInputChange_frame
      ⟨⟨"12345", "Jane Doe", ""⟩,
        ⟨"Account number must be 10-16 digits", "", "Amount is required"⟩⟩
      Field.beneficiaryName "J").2.2.2 rfl⟩

/-! ## The admin session gate -/

/-- One run of the observer when the sign-out call is rejected, against the
comment "If no admin doc, sign out and redirect": for a session whose profile
document is missing, the observer then makes one sign-out call, no redirect
call, and one error notification whose text is "Failed to load admin
profile.", not "Not authorized as admin.". -/
theorem authObserver_missing_signOut_rejected :
    (Dashboard.authObserver (some "admin-1") Dashboard.FetchOutcome.missing
        Dashboard.SignOutOutcome.rejected).filter Dashboard.Call.isSignOut =
      [Dashboard.Call.signOut] ∧
    (Dashboard.authObserver (some "admin-1") Dashboard.FetchOutcome.missing
        Dashboard.SignOutOutcome.rejected).filter Dashboard.Call.isRouterPush = [] ∧
    (Dashboard.authObserver (some "admin-1") Dashboard.FetchOutcome.missing
        Dashboard.SignOutOutcome.rejected).filter Dashboard.Call.isToastError =
      [Dashboard.Call.toastError "Failed to load admin profile."] := by
  refine ⟨by decide, by decide, by decide⟩

/-- One run of the observer for a signed-in user whose profile document does
not exist: the run makes exactly one sign-out call and never calls `setAdmin`,
so the held profile is unchanged and, from the first render, the session is not
authorised; when the sign-out call succeeds the run also makes one redirect
call, to "/admin/signin", and one error notification, "Not authorized as
admin.". -/
theorem authObserver_missing_profile (uid : String) (signedOut : Dashboard.SignOutOutcome)
    (st : Dashboard.GateState) :
    (Dashboard.authObserver (some uid) Dashboard.FetchOutcome.missing signedOut).filter
        Dashboard.Call.isSignOut = [Dashboard.Call.signOut] ∧
    (Dashboard.authObserver (some uid) Dashboard.FetchOutcome.missing signedOut).filter
        Dashboard.Call.isSetAdmin = [] ∧
    (Dashboard.applyCalls st
        (Dashboard.authObserver (some uid) Dashboard.FetchOutcome.missing signedOut)).admin =
      st.admin ∧
    (Dashboard.applyCalls Dashboard.GateState.initial
        (Dashboard.authObserver (some uid) Dashboard.FetchOutcome.missing signedOut)).authorized =
      false ∧
    (signedOut = Dashboard.SignOutOutcome.resolved →
      (Dashboard.authObserver (some uid) Dashboard.FetchOutcome.missing signedOut).filter
          Dashboard.Call.isRouterPush = [Dashboard.Call.routerPush "/admin/signin"] ∧
      (Dashboard.authObserver (some uid) Dashboard.FetchOutcome.missing signedOut).filter
          Dashboard.Call.isToastError = [Dashboard.Call.toastError "Not authorized as admin."]) := by
  cases signedOut
  · refine ⟨rfl, rfl, rfl, rfl, fun _ => ⟨rfl, rfl⟩⟩
  · refine ⟨rfl, rfl, rfl, rfl, fun h => ?_⟩
    cases h

/-- The run of the observer for the user "admin-1" with a sign-out that
succeeds. -/
theorem authObserver_missing_profile_witness :
    (Dashboard.authObserver (some "admin-1") Dashboard.FetchOutcome.missing
        Dashboard.SignOutOutcome.resolved).filter Dashboard.Call.isSignOut =
      [Dashboard.Call.signOut] ∧
    (Dashboard.authObserver (some "admin-1") Dashboard.FetchOutcome.missing
        Dashboard.SignOutOutcome.resolved).filter Dashboard.Call.isRouterPush =
      [Dashboard.Call.routerPush "/admin/signin"] ∧
    (Dashboard.authObserver (some "admin-1") Dashboard.FetchOutcome.missing
        Dashboard.SignOutOutcome.resolved).filter Dashboard.Call.isToastError =
      [Dashboard.Call.toastError "Not authorized as admin."] :=
  have w := authObserver_missing_profile "admin-1" Dashboard.SignOutOutcome.resolved
    Dashboard.GateState.initial
  ⟨w.1, (w.2.2.2.2 rfl).1, (w.2.2.2.2 rfl).2⟩

/-- C9 as stated fails on the count of redirect calls: for the session
"admin-1" whose profile document is missing and whose sign-out succeeds, the
gate pushes "/admin/signin" twice, once after the sign-out and once more when
the observer is called again with no user. -/
theorem sessionCalls_redirects_twice :
    (Dashboard.sessionCalls "admin-1" Dashboard.FetchOutcome.missing
        Dashboard.SignOutOutcome.resolved).filter Dashboard.Call.isRouterPush =
      [Dashboard.Call.routerPush "/admin/signin", Dashboard.Call.routerPush "/admin/signin"] ∧
    (Dashboard.sessionCalls "admin-1" Dashboard.FetchOutcome.missing
        Dashboard.SignOutOutcome.resolved).filter Dashboard.Call.isRouterPush ≠
      [Dashboard.Call.routerPush "/admin/signin"] := by
  refine ⟨by decide, by decide⟩

/-- C9 (amended): for every authenticated session whose profile document does
not exist and whose sign-out call succeeds, the gate makes exactly one
sign-out call, two redirect calls, both to "/admin/signin" (one after the
sign-out, one when the observer is called again with no user), and exactly one
error notification, "Not authorized as admin."; it never calls `setAdmin`, so
the held profile is unchanged and, from the first render, the session is never
authorised. -/
theorem sessionCalls_missing_profile (uid : String) (st : Dashboard.GateState) :
    (Dashboard.sessionCalls uid Dashboard.FetchOutcome.missing
        Dashboard.SignOutOutcome.resolved).filter Dashboard.Call.isSignOut =
      [Dashboard.Call.signOut] ∧
    (Dashboard.sessionCalls uid Dashboard.FetchOutcome.missing
        Dashboard.SignOutOutcome.resolved).filter Dashboard.Call.isRouterPush =
      [Dashboard.Call.routerPush "/admin/signin", Dashboard.Call.routerPush "/admin/signin"] ∧
    (Dashboard.sessionCalls uid Dashboard.FetchOutcome.missing
        Dashboard.SignOutOutcome.resolved).filter Dashboard.Call.isToastError =
      [Dashboard.Call.toastError "Not authorized as admin."] ∧
    (Dashboard.sessionCalls uid Dashboard.FetchOutcome.missing
        Dashboard.SignOutOutcome.resolved).filter Dashboard.Call.isSetAdmin = [] ∧
    (Dashboard.applyCalls st
        (Dashboard.sessionCalls uid Dashboard.FetchOutcome.missing
          Dashboard.SignOutOutcome.resolved)).admin = st.admin ∧
    (Dashboard.applyCalls Dashboard.GateState.initial
        (Dashboard.sessionCalls uid Dashboard.FetchOutcome.missing
          Dashboard.SignOutOutcome.resolved)).authorized = false := by
  have hs : Dashboard.sessionCalls uid Dashboard.FetchOutcome.missing
      Dashboard.SignOutOutcome.resolved =
      [Dashboard.Call.setUid uid, Dashboard.Call.setLoadingAuth false,
        Dashboard.Call.setAdminLoading true, Dashboard.Call.getDoc "admin" uid,
        Dashboard.Call.signOut, Dashboard.Call.routerPush "/admin/signin",
        Dashboard.Call.toastError "Not authorized as admin.",
        Dashboard.Call.setAdminLoading false, Dashboard.Call.setLoadingAuth false,
        Dashboard.Call.routerPush "/admin/signin"] := by
    rfl
  rw [hs]
  exact ⟨rfl, rfl, rfl, rfl, rfl, rfl⟩

/-- C9 (amended) for the session "admin-1". -/
theorem sessionCalls_missing_profile_witness :
    (Dashboard.sessionCalls "admin-1" Dashboard.FetchOutcome.missing
        Dashboard.SignOutOutcome.resolved).filter Dashboard.Call.isSignOut =
      [Dashboard.Call.signOut] ∧
    (Dashboard.sessionCalls "admin-1" Dashboard.FetchOutcome.missing
        Dashboard.SignOutOutcome.resolved).filter Dashboard.Call.isToastError =
      [Dashboard.Call.toastError "Not authorized as admin."] ∧
    (Dashboard.applyCalls Dashboard.GateState.initial
        (Dashboard.sessionCalls "admin-1" Dashboard.FetchOutcome.missing
          Dashboard.SignOutOutcome.resolved)).authorized = false :=
  have w := sessionCalls_missing_profile "admin-1" Dashboard.GateState.initial
  ⟨w.1, w.2.2.1, w.2.2.2.2.2⟩

/-- A session in which no sign-out resolves is the one run of the observer: a
rejected sign-out, a profile that exists and a failed fetch are followed by no
second run. -/
theorem sessionCalls_single_run (uid : String) (data : Dashboard.AdminProfile) :
    Dashboard.sessionCalls uid Dashboard.FetchOutcome.missing Dashboard.SignOutOutcome.rejected =
      Dashboard.authObserver (some uid) Dashboard.FetchOutcome.missing
        Dashboard.SignOutOutcome.rejected ∧
    Dashboard.sessionCalls uid (Dashboard.FetchOutcome.found data)
        Dashboard.SignOutOutcome.resolved =
      Dashboard.authObserver (some uid) (Dashboard.FetchOutcome.found data)
        Dashboard.SignOutOutcome.resolved ∧
    Dashboard.sessionCalls uid Dashboard.FetchOutcome.rejected Dashboard.SignOutOutcome.resolved =
      Dashboard.authObserver (some uid) Dashboard.FetchOutcome.rejected
        Dashboard.SignOutOutcome.resolved := by
  exact ⟨rfl, rfl, rfl⟩

/-! ## The dashboard subscriptions -/

/-- No event releases a document listener: the listeners live before an event
are still live after it, in the same order. -/
theorem step_keeps_snapshotListeners (w : Index.World) (e : Index.Event) :
    w.snapshotListeners <+: (Index.step w e).snapshotListeners := by
  cases e with
  | mount => exact List.prefix_refl _
  | unmount => exact List.prefix_refl _
  | authStateChanged currentUser =>
    unfold Index.step
    by_cases h : w.authListener = true
    · simp only [h, if_true]
      cases currentUser with
      | none => exact List.prefix_refl _
      | some uid => exact List.prefix_append _ _
    · simp only [h, Bool.false_eq_true, if_false]
      exact List.prefix_refl _

/-- C10, the code at the failing inputs: after mount, a sign-in of "u1" and
unmount, the auth listener is released but the document listener of "u1" is
still live; after mount and the sign-ins of "u1" and then "u2", two document
listeners are live at once. -/
theorem snapshot_listener_not_released :
    (Index.run [Index.Event.mount, Index.Event.authStateChanged (some "u1"),
        Index.Event.unmount]).authListener = false ∧
    (Index.run [Index.Event.mount, Index.Event.authStateChanged (some "u1"),
        Index.Event.unmount]).snapshotListeners = [(0, "u1")] ∧
    (Index.run [Index.Event.mount, Index.Event.authStateChanged (some "u1"),
        Index.Event.authStateChanged (some "u2")]).snapshotListeners = [(0, "u1"), (1, "u2")] := by
  refine ⟨by decide, by decide, by decide⟩

/-! ## The displayed messages are never stale -/

/-- The message `validateForm` stores for a field depends on the value of that
field only. -/
theorem validateForm_errors_get_congr (s t : TransferState) (g : Field)
    (h : s.formData.get g = t.formData.get g) :
    (validateForm s).1.errors.get g = (validateForm t).1.errors.get g := by
  cases g with
  | accountNumber =>
    have h' : s.formData.accountNumber = t.formData.accountNumber := h
    show (validateForm s).1.errors.accountNumber = (validateForm t).1.errors.accountNumber
    rw [validateForm_accountNumber, validateForm_accountNumber, h']
  | beneficiaryName =>
    have h' : s.formData.beneficiaryName = t.formData.beneficiaryName := h
    show (validateForm s).1.errors.beneficiaryName = (validateForm t).1.errors.beneficiaryName
    rw [validateForm_beneficiaryName, validateForm_beneficiaryName, h']
  | amount =>
    have h' : s.formData.amount = t.formData.amount := h
    show (validateForm s).1.errors.amount = (validateForm t).1.errors.amount
    rw [validateForm_amount, validateForm_amount, h']

/-- An edit keeps the property that every non-empty message is the one
`validateForm` gives for the current value of its field. -/
theorem handleInputChange_keeps_fresh (st : TransferState) (f : Field) (v : String)
    (h : ∀ g : Field, st.errors.get g ≠ "" → st.errors.get g = (validateForm st).1.errors.get g) :
    ∀ g : Field, (handleInputChange f v st).errors.get g ≠ "" →
      (handleInputChange f v st).errors.get g =
        (validateForm (handleInputChange f v st)).1.errors.get g := by
  intro g hg
  by_cases hgf : g = f
  · subst hgf
    exfalso
    apply hg
    unfold handleInputChange
    by_cases ht : truthy (st.errors.get g) = true
    · simp only [ht, if_true]
      cases g <;> rfl
    · simp only [ht, Bool.false_eq_true, if_false]
      exact (truthy_eq_false_iff _).mp (by simpa using ht)
  · have hval : (handleInputChange f v st).formData.get g = st.formData.get g := by
      cases f <;> cases g <;> first | rfl | exact absurd rfl hgf
    have herr : (handleInputChange f v st).errors.get g = st.errors.get g := by
      unfold handleInputChange
      by_cases ht : truthy (st.errors.get f) = true
      · simp only [ht, if_true]
        cases f <;> cases g <;> first | rfl | exact absurd rfl hgf
      · simp only [ht, Bool.false_eq_true, if_false]
    rw [herr] at hg ⊢
    rw [h g hg]
    exact (validateForm_errors_get_congr _ _ g hval).symm

/-- A submit keeps the property: a failed submit stores the messages of
`validateForm` and keeps the values, a successful one stores empty messages. -/
theorem handleSubmit_keeps_fresh (st : TransferState) :
    ∀ g : Field, (handleSubmit st).1.errors.get g ≠ "" →
      (handleSubmit st).1.errors.get g = (validateForm (handleSubmit st).1).1.errors.get g := by
  intro g hg
  cases hv : (validateForm st).2 with
  | false =>
    have hs : handleSubmit st = ((validateForm st).1, [Effect.preventDefault]) := by
      simp only [handleSubmit, hv, Bool.false_eq_true, if_false]
    rw [hs]
    exact validateForm_errors_get_congr st (validateForm st).1 g rfl
  | true =>
    exfalso
    apply hg
    have he := validateForm_true_errors st hv
    have hs : (handleSubmit st).1.errors = (validateForm st).1.errors := by
      simp only [handleSubmit, hv, if_true]
    rw [hs, he]
    cases g <;> rfl

/-- C13: in every state reached from the first render (all values and
messages empty) by edits of the three fields and submits, each non-empty entry
of the messages equals the message `validateForm` gives for the current value
of that field. -/
theorem runActions_errors_fresh (actions : List Action) (g : Field)
    (h : (runActions actions).errors.get g ≠ "") :
    (runActions actions).errors.get g = (validateForm (runActions actions)).1.errors.get g := by
  have key : ∀ (acts : List Action) (st : TransferState),
      (∀ g : Field, st.errors.get g ≠ "" → st.errors.get g = (validateForm st).1.errors.get g) →
      ∀ g : Field, (acts.foldl applyAction st).errors.get g ≠ "" →
        (acts.foldl applyAction st).errors.get g =
          (validateForm (acts.foldl applyAction st)).1.errors.get g := by
    intro acts
    induction acts with
    | nil => intro st hst; exact hst
    | cons a acts ih =>
      intro st hst
      rw [List.foldl_cons]
      apply ih
      cases a with
      | input f v => exact handleInputChange_keeps_fresh st f v hst
      | submit => exact handleSubmit_keeps_fresh st
  refine key actions initialState ?_ g h
  intro g hg
  exfalso
  apply hg
  cases g <;> rfl

/-- C13 on the run: type "12345" as account number, submit, then type a name.
The account-number and amount messages are still displayed and are those of
the current values. -/
theorem runActions_errors_fresh_witness :
    (runActions [Action.input Field.accountNumber "12345", Action.submit,
        Action.input Field.beneficiaryName "Jane Doe"]).errors =
      ⟨"Account number must be 10-16 digits", "", "Amount is required"⟩ ∧
    (runActions [Action.input Field.accountNumber "12345", Action.submit,
        Action.input Field.beneficiaryName "Jane Doe"]).errors.get Field.accountNumber =
      (validateForm (runActions [Action.input Field.accountNumber "12345", Action.submit,
        Action.input Field.beneficiaryName "Jane Doe"])).1.errors.get Field.accountNumber :=
  ⟨by decide,
   runActions_errors_fresh
     [Action.input Field.accountNumber "12345", Action.submit,
       Action.input Field.beneficiaryName "Jane Doe"]
     Field.accountNumber (by decide)⟩

/-! ## The admin display name and initials -/

/-- With no option the general formatter is `toLocaleStringEnIN`. -/
theorem formatEnIN_zero (x : JsNumber) : formatEnIN 0 x = toLocaleStringEnIN x := by
  cases x with
  | nan => rfl
  | infinity negative => rfl
  | finite negative k => simp [formatEnIN, toLocaleStringEnIN, padFraction]

/-- Splitting leaves no non-empty piece exactly when no piece is being read
and the rest of the input is white space. -/
theorem splitWhiteSpaceFrom_no_word (rest : List Char) :
    ∀ (inSeparator : Bool) (current : List Char),
      ((Dashboard.splitWhiteSpaceFrom inSeparator current rest).map String.mk).filter truthy = [] ↔
        current = [] ∧ ∀ c ∈ rest, isWhiteSpace c = true := by
  induction rest with
  | nil =>
    intro inSeparator current
    cases current <;> simp [Dashboard.splitWhiteSpaceFrom, truthy]
  | cons c rest ih =>
    intro inSeparator current
    unfold Dashboard.splitWhiteSpaceFrom
    by_cases hc : isWhiteSpace c = true
    · cases inSeparator
      · simp only [hc, if_true, Bool.false_eq_true, if_false, List.map_cons, List.mem_cons,
          forall_eq_or_imp, true_and]
        cases current with
        | nil =>
          have := ih true []
          simp [truthy, List.filter_cons] at this ⊢
          exact this
        | cons x xs => simp [truthy, List.filter_cons]
      · simp only [hc, if_true, List.mem_cons, forall_eq_or_imp, true_and]
        exact ih true current
    · simp only [hc, Bool.false_eq_true, if_false, List.mem_cons, forall_eq_or_imp, false_and,
        and_false, iff_false]
      intro h
      have := (ih false (c :: current)).mp h
      exact absurd this.1 (List.cons_ne_nil _ _)

/-- Computing `initials` throws exactly on a display name that is not empty and
holds white space only. -/
theorem initials_error_iff (toUpperCase : String → String) (name : String) :
    (∃ e, Dashboard.initials toUpperCase name = Except.error e) ↔
      name ≠ "" ∧ ∀ c ∈ name.data, isWhiteSpace c = true := by
  have hsplit := splitWhiteSpaceFrom_no_word name.data false []
  simp only [true_and] at hsplit
  unfold Dashboard.initials
  by_cases ht : truthy name = true
  · have hne := (truthy_eq_true_iff name).mp ht
    simp only [ht, Bool.not_true, Bool.false_eq_true, if_false]
    by_cases h1 : ((Dashboard.splitWhiteSpace name).filter truthy).length = 1
    · simp only [h1, if_true]
      constructor
      · rintro ⟨e, he⟩
        cases he
      · rintro ⟨_, hall⟩
        have hnil := hsplit.mpr hall
        unfold Dashboard.splitWhiteSpace at h1
        rw [hnil] at h1
        cases h1
    · simp only [h1, if_false]
      cases hp : (Dashboard.splitWhiteSpace name).filter truthy with
      | nil =>
        simp only [List.head?_nil, List.getLast?_nil]
        constructor
        · intro _
          unfold Dashboard.splitWhiteSpace at hp
          exact ⟨hne, hsplit.mp hp⟩
        · intro _
          exact ⟨_, rfl⟩
      | cons a l =>
        have hlast : ∃ z, (a :: l).getLast? = some z :=
          ⟨(a :: l).getLast (List.cons_ne_nil _ _), List.getLast?_eq_getLast _ _⟩
        obtain ⟨z, hz⟩ := hlast
        simp only [List.head?_cons, hz]
        constructor
        · rintro ⟨e, he⟩
          cases he
        · rintro ⟨_, hall⟩
          have hnil := hsplit.mpr hall
          unfold Dashboard.splitWhiteSpace at hp
          rw [hnil] at hp
          cases hp
  · have hf : truthy name = false := by simpa using ht
    have he := (truthy_eq_false_iff name).mp hf
    simp only [hf, Bool.not_false, if_true]
    constructor
    · rintro ⟨e, h⟩
      cases h
    · rintro ⟨hne, _⟩
      exact absurd he hne

/-- On a trimmed string `initials` does not throw. -/
theorem initials_ok_of_trim (toUpperCase : String → String) (s : String) :
    ∃ r, Dashboard.initials toUpperCase (trim s) = Except.ok r := by
  cases hr : Dashboard.initials toUpperCase (trim s) with
  | ok r => exact ⟨r, rfl⟩
  | error e =>
    exfalso
    obtain ⟨hne, hall⟩ := (initials_error_iff toUpperCase (trim s)).mp ⟨e, hr⟩
    cases hd : (trim s).data with
    | nil =>
      apply hne
      have : (trim s) = String.mk (trim s).data := rfl
      rw [this, hd]
    | cons c cs =>
      have hhead : (trim s).data.head? = some c := by rw [hd]; rfl
      have hnot := trim_no_leading s c hhead
      have hws := hall c (by rw [hd]; exact List.mem_cons_self _ _)
      rw [hnot] at hws
      exact Bool.false_ne_true hws

/-- When the profile is `null`, or has no `Name` or an empty one, the display
name is the trimmed full name and `initials` does not throw. -/
theorem initials_ok_without_Name (toUpperCase : String → String)
    (admin : Option Dashboard.AdminProfile)
    (h : admin.bind Dashboard.AdminProfile.Name = none ∨
      admin.bind Dashboard.AdminProfile.Name = some "") :
    ∃ r, Dashboard.initials toUpperCase (Dashboard.displayName admin) = Except.ok r := by
  have hd : ∃ s, Dashboard.displayName admin = trim s := by
    refine ⟨Dashboard.orString (admin.bind Dashboard.AdminProfile.firstName) "" ++ " " ++
      Dashboard.orString (admin.bind Dashboard.AdminProfile.lastName) "", ?_⟩
    unfold Dashboard.displayName
    rcases h with h | h
    · simp only [h, Dashboard.orString]
      split_ifs with ht
      · rfl
      · exact ((truthy_eq_false_iff _).mp (by simpa using ht)).symm
    · simp only [h, Dashboard.orString, show truthy "" = false from rfl, Bool.false_eq_true,
        if_false]
      split_ifs with ht
      · rfl
      · exact ((truthy_eq_false_iff _).mp (by simpa using ht)).symm
  obtain ⟨s, hs⟩ := hd
  rw [hs]
  exact initials_ok_of_trim toUpperCase s

/-- C14, the code at the failing input: for the profile whose `Name` is three
spaces the display name is those three spaces, which is not empty, and
computing `initials` throws, whatever `toUpperCase` does. -/
theorem initials_throws_on_blank_Name (toUpperCase : String → String) :
    Dashboard.displayName (some ⟨some "   ", none, none⟩) = "   " ∧
    Dashboard.initials toUpperCase (Dashboard.displayName (some ⟨some "   ", none, none⟩)) =
      Except.error "TypeError: parts[0] is undefined" := by
  exact ⟨by rfl, by rfl⟩

/-- Values of `displayName` and `initials` on sample profiles, with the letters
`a` to `z` upper-cased. -/
theorem initials_samples :
    Dashboard.initials Dashboard.asciiUpperCase (Dashboard.displayName none) = Except.ok "" ∧
    Dashboard.initials Dashboard.asciiUpperCase
      (Dashboard.displayName (some ⟨some "jane", none, none⟩)) = Except.ok "JA" ∧
    Dashboard.initials Dashboard.asciiUpperCase
      (Dashboard.displayName (some ⟨none, some " Jane", some "van Doe "⟩)) = Except.ok "JD" ∧
    Dashboard.displayName (some ⟨some "", some "  ", some " "⟩) = "" ∧
    Dashboard.splitWhiteSpace "  a b  c " = ["", "a", "b", "c", ""] := by
  exact ⟨by rfl, by rfl, by rfl, by rfl, by rfl⟩

/-! ## The dashboard view -/

/-- Without a `uid` the account label throws, and so does the render of any
loaded state that holds such data. -/
theorem render_error_of_no_uid (st : Index.ViewState) (userData : Index.UserData)
    (hl : st.loading = false) (hd : st.userData = some userData) (hu : userData.uid = none) :
    Index.render st = Except.error "TypeError: userData.uid is undefined" := by
  unfold Index.render
  simp only [hl, Bool.false_eq_true, if_false, hd, Index.accountLabel, hu]

/-- The cards of a list of fixed deposits that all carry an amount. -/
theorem fixedDepositCards_ok (fds : List Index.FixedDeposit)
    (h : ∀ fd ∈ fds, fd.amount ≠ none) :
    ∃ cards, Index.fixedDepositCards fds = Except.ok cards := by
  induction fds with
  | nil => exact ⟨[], rfl⟩
  | cons fd rest ih =>
    obtain ⟨cards, hc⟩ := ih (fun x hx => h x (List.mem_cons_of_mem _ hx))
    have hfd := h fd (List.mem_cons_self _ _)
    cases ha : fd.amount with
    | none => exact absurd ha hfd
    | some amount =>
      refine ⟨{ tenure := fd.tenure, amountText := "₹" ++ toLocaleStringEnIN amount,
                rateText := fd.rate ++ "% p.a.",
                maturityText := "Matures on: " ++ fd.maturityDate } :: cards, ?_⟩
      simp only [Index.fixedDepositCards, Index.fixedDepositCard, ha, hc]

/-- The part of C11 that holds: when the held data carries a `uid` and every
fixed deposit carries an amount, the render succeeds, and an absent
`transactions`, `fixedDeposits` or `documents` key renders as the empty list
(its placeholder line) and an absent `accBalance` as 0, shown as "₹0.00". -/
theorem render_defaults (st : Index.ViewState) (userData : Index.UserData) (uid : String)
    (hl : st.loading = false) (hd : st.userData = some userData) (hu : userData.uid = some uid)
    (hf : ∀ fd ∈ userData.fixedDeposits.getD [], fd.amount ≠ none) :
    ∃ view, Index.render st = Except.ok (Index.Rendered.dashboard view) ∧
      (userData.transactions = none →
        view.transactions = Index.ListCard.placeholder "No transactions yet.") ∧
      (userData.fixedDeposits = none →
        view.fixedDeposits = Index.ListCard.placeholder "No active fixed deposits.") ∧
      (userData.documents = none →
        view.documents = Index.ListCard.placeholder "No documents found.") ∧
      (userData.accBalance = none → st.showBalance = true → view.balanceText = "₹0.00") := by
  obtain ⟨cards, hc⟩ := fixedDepositCards_ok _ hf
  have hview : ∀ label cs,
      (userData.transactions = none →
        (Index.dashboardView st userData label cs).transactions =
          Index.ListCard.placeholder "No transactions yet.") ∧
      (userData.fixedDeposits = none →
        (Index.dashboardView st userData label cs).fixedDeposits =
          Index.ListCard.placeholder "No active fixed deposits.") ∧
      (userData.documents = none →
        (Index.dashboardView st userData label cs).documents =
          Index.ListCard.placeholder "No documents found.") ∧
      (userData.accBalance = none → st.showBalance = true →
        (Index.dashboardView st userData label cs).balanceText = "₹0.00") := by
    intro label cs
    refine ⟨fun ht => ?_, fun ht => ?_, fun ht => ?_, fun hb hs => ?_⟩
    · simp [Index.dashboardView, ht, Index.listCard]
    · simp [Index.dashboardView, ht]
    · simp [Index.dashboardView, ht, Index.listCard]
    · simp only [Index.dashboardView, hb, hs, if_true, orNumber]
      rfl
  by_cases h0 : (userData.fixedDeposits.getD []).length = 0
  · refine ⟨Index.dashboardView st userData
      ("Savings Account - ****" ++ String.mk (sliceFromStart 4 uid.data)) [], ?_, hview _ _⟩
    unfold Index.render
    simp only [hl, Bool.false_eq_true, if_false, hd, Index.accountLabel, hu, h0, if_true]
  · refine ⟨Index.dashboardView st userData
      ("Savings Account - ****" ++ String.mk (sliceFromStart 4 uid.data)) cards, ?_, hview _ _⟩
    unfold Index.render
    simp only [hl, Bool.false_eq_true, if_false, hd, Index.accountLabel, hu, h0, hc]

/-- C11, the code at the failing input: with loading cleared and a held
snapshot that has a name and a balance but no `uid` key, the render throws a
TypeError instead of returning a view. -/
theorem render_throws_without_uid :
    Index.render
        { loading := false, showBalance := false
          userData := some
            { uid := none, firstName := some "Jane", lastName := some "Doe"
              accBalance := some (JsNumber.finite false (500 <<< 1074))
              transactions := none, fixedDeposits := none, documents := none } } =
      Except.error "TypeError: userData.uid is undefined" := by
  rfl

/-- The render of the same snapshot with a `uid` key: the three lists show
their placeholder lines. -/
theorem render_sample :
    Index.render
        { loading := false, showBalance := true
          userData := some
            { uid := some "abcdefgh", firstName := some "Jane", lastName := some "Doe"
              accBalance := none
              transactions := none, fixedDeposits := none, documents := none } } =
      Except.ok (Index.Rendered.dashboard
        { welcome := "Welcome back, Jane Doe"
          accountLabel := "Savings Account - ****abcd"
          balanceText := "₹0.00"
          transactions := Index.ListCard.placeholder "No transactions yet."
          fixedDeposits := Index.ListCard.placeholder "No active fixed deposits."
          documents := Index.ListCard.placeholder "No documents found." }) := by
  rfl

/-! ## The pushes of the live subscription -/

/-- One push: the loading flag is cleared; an existing document replaces the
held data, a missing one leaves it. -/
theorem onSnapshotCallback_state (docSnap : Index.DocSnapshot) (st : Index.ViewState) :
    (Index.onSnapshotCallback docSnap st).1.loading = false ∧
    (Index.onSnapshotCallback docSnap st).1.showBalance = st.showBalance ∧
    (∀ data, docSnap = Index.DocSnapshot.existing data →
      (Index.onSnapshotCallback docSnap st).1.userData = some data) ∧
    (docSnap = Index.DocSnapshot.missing →
      (Index.onSnapshotCallback docSnap st).1.userData = st.userData) := by
  cases docSnap with
  | existing d =>
    refine ⟨rfl, rfl, fun data h => ?_, fun h => ?_⟩
    · cases h; rfl
    · cases h
  | missing =>
    refine ⟨rfl, rfl, fun data h => ?_, fun _ => rfl⟩
    cases h

/-- Pushes of missing documents only do not change the held data. -/
theorem pushAll_missing_userData (pushes : List Index.DocSnapshot) :
    ∀ st : Index.ViewState, (∀ p ∈ pushes, p = Index.DocSnapshot.missing) →
      (Index.pushAll st pushes).userData = st.userData := by
  induction pushes with
  | nil => intro st _; rfl
  | cons p pushes ih =>
    intro st h
    have hp := h p (List.mem_cons_self _ _)
    subst hp
    unfold Index.pushAll
    rw [List.foldl_cons]
    exact ih _ (fun q hq => h q (List.mem_cons_of_mem _ hq))

/-- C12 as stated fails on a missing document pushed after an existing one:
from the first render, after the pushes of an existing document and then of a
missing one, the held snapshot is still the data of the first push, and the
dashboard is rendered from it. -/
theorem missing_push_keeps_stale_data :
    (Index.pushAll Index.ViewState.initial
        [Index.DocSnapshot.existing ⟨some "u1", some "Jane", some "Doe", none, none, none, none⟩,
          Index.DocSnapshot.missing]).userData =
      some ⟨some "u1", some "Jane", some "Doe", none, none, none, none⟩ ∧
    Index.render (Index.pushAll Index.ViewState.initial
        [Index.DocSnapshot.existing ⟨some "u1", some "Jane", some "Doe", none, none, none, none⟩,
          Index.DocSnapshot.missing]) ≠ Except.ok Index.Rendered.nothing := by
  refine ⟨by rfl, ?_⟩
  intro h
  cases h

/-- C12 (amended): for every sequence of pushes, after each push the loading
flag is cleared whether or not the document exists; the held snapshot is the
data of the pushed document when it exists, and is what it was before the push
when the pushed document is missing. So it is "no data", with nothing
rendered, when nothing was held at the start and no push so far carried an
existing document. -/
theorem pushAll_last_push (st : Index.ViewState) (pushes : List Index.DocSnapshot)
    (p : Index.DocSnapshot) :
    (Index.pushAll st (pushes ++ [p])).loading = false ∧
    (∀ data, p = Index.DocSnapshot.existing data →
      (Index.pushAll st (pushes ++ [p])).userData = some data) ∧
    (p = Index.DocSnapshot.missing →
      (Index.pushAll st (pushes ++ [p])).userData = (Index.pushAll st pushes).userData) ∧
    (p = Index.DocSnapshot.missing → st.userData = none →
      (∀ q ∈ pushes, q = Index.DocSnapshot.missing) →
      (Index.pushAll st (pushes ++ [p])).userData = none ∧
      Index.render (Index.pushAll st (pushes ++ [p])) = Except.ok Index.Rendered.nothing) := by
  have hstep : Index.pushAll st (pushes ++ [p]) =
      (Index.onSnapshotCallback p (Index.pushAll st pushes)).1 := by
    unfold Index.pushAll
    rw [List.foldl_append]
    rfl
  obtain ⟨h1, _, h3, h4⟩ := onSnapshotCallback_state p (Index.pushAll st pushes)
  rw [hstep]
  refine ⟨h1, h3, h4, fun hp hs hall => ?_⟩
  have hnone : (Index.onSnapshotCallback p (Index.pushAll st pushes)).1.userData = none := by
    rw [h4 hp, pushAll_missing_userData pushes st hall, hs]
  refine ⟨hnone, ?_⟩
  unfold Index.render
  simp only [h1, Bool.false_eq_true, if_false, hnone]

/-- C12 (amended) on the pushes missing, existing, missing from the first
render: loading is cleared after the first push already, with nothing held and
nothing rendered; the second push is held, and the third leaves it held. -/
theorem pushAll_last_push_witness :
    (Index.pushAll Index.ViewState.initial [Index.DocSnapshot.missing]).loading = false ∧
    Index.render (Index.pushAll Index.ViewState.initial [Index.DocSnapshot.missing]) =
      Except.ok Index.Rendered.nothing ∧
    (Index.pushAll Index.ViewState.initial
        [Index.DocSnapshot.missing,
          Index.DocSnapshot.existing ⟨some "u1", some "Jane", some "Doe", none, none, none, none⟩,
          Index.DocSnapshot.missing]).userData =
      some ⟨some "u1", some "Jane", some "Doe", none, none, none, none⟩ :=
  have w1 := pushAll_last_push Index.ViewState.initial [] Index.DocSnapshot.missing
  have w3 := pushAll_last_push Index.ViewState.initial
    [Index.DocSnapshot.missing,
      Index.DocSnapshot.existing ⟨some "u1", some "Jane", some "Doe", none, none, none, none⟩]
    Index.DocSnapshot.missing
  ⟨w1.1, (w1.2.2.2 rfl rfl (fun q hq => absurd hq (List.not_mem_nil q))).2,
   (w3.2.2.1 rfl).trans (by rfl)⟩

end ChamAIleon
